import Mathlib

/-!
Verification development for the `smart-mcp-server` repository: a shallow
embedding of its three FHIR tool servers (`fhir_server.py`,
`fhir_mcp_server.py`, `fhir_immunization_server.py`) together with proofs
about request construction, input validation, error normalization, the
ImplementationGuide session context and the JSON round-trip of the
`raw_json` output mode.

JSON values are modelled by the mutual inductive `Json` below, mirroring
the untyped `dict`/`list`/`str`/`int`/`bool`/`None` values the servers pass
around.  `Json.dumps` models the standard pretty printer invoked as
`json.dumps(value, indent=2)` (2-space indentation, insertion order kept);
`parseJson` models re-parsing the produced text as JSON (`json.loads`).
-/

namespace SmartMcp

/-- The double-quote character. -/
def qt : Char := Char.ofNat 34

/-- The backslash character. -/
def bs : Char := Char.ofNat 92

/-- The opening-brace character. -/
def lbr : Char := Char.ofNat 123

/-- The closing-brace character. -/
def rbr : Char := Char.ofNat 125

/-- The single-quote character. -/
def sq : Char := Char.ofNat 39

/-- JSON whitespace (the characters `json.loads` skips between tokens). -/
def isWsChar (c : Char) : Bool :=
  c == ' ' || c == '\n' || c == '\t' || Char.ofNat 13 == c

/-- ASCII decimal digit test. -/
def isDigitChar (c : Char) : Bool :=
  48 ≤ c.toNat && c.toNat ≤ 57

/-- The decimal digit character for `d < 10`. -/
def digitChar (d : Nat) : Char := Char.ofNat (48 + d)

/-- Lowercase hexadecimal digit character for `d < 16`. -/
def hexDigit (d : Nat) : Char :=
  if d < 10 then Char.ofNat (48 + d) else Char.ofNat (87 + d)

/-- Value of a hexadecimal digit character. -/
def hexVal (c : Char) : Option Nat :=
  if 48 ≤ c.toNat ∧ c.toNat ≤ 57 then some (c.toNat - 48)
  else if 97 ≤ c.toNat ∧ c.toNat ≤ 102 then some (c.toNat - 87)
  else if 65 ≤ c.toNat ∧ c.toNat ≤ 70 then some (c.toNat - 55)
  else none

/-- Decimal digits of a natural number, most significant first
(fuel-structured so that it reduces in the kernel). -/
def natDigitsF : Nat → Nat → List Char
  | 0, _ => []
  | f + 1, n =>
    if n < 10 then [digitChar n]
    else natDigitsF f (n / 10) ++ [digitChar (n % 10)]

/-- Decimal digits of a natural number, most significant first. -/
def natDigits (n : Nat) : List Char := natDigitsF (n + 1) n

/-- Greedily consume decimal digits, accumulating their value. -/
def parseDigitsAux : List Char → Nat → Nat × List Char
  | [], acc => (acc, [])
  | c :: r, acc =>
    if isDigitChar c then parseDigitsAux r (acc * 10 + (c.toNat - 48))
    else (acc, c :: r)

mutual

/-- Untyped JSON value, as produced by `json.loads`: object field order is
the order of appearance and duplicate keys are kept by the model. -/
inductive Json where
  | null : Json
  | bool (b : Bool) : Json
  | num (n : Int) : Json
  | str (s : String) : Json
  | arr (elems : JsonList) : Json
  | obj (fields : JsonObj) : Json
  deriving DecidableEq

/-- The element list of a JSON array. -/
inductive JsonList where
  | nil : JsonList
  | cons (hd : Json) (tl : JsonList) : JsonList
  deriving DecidableEq

/-- The field list of a JSON object, in insertion order. -/
inductive JsonObj where
  | nil : JsonObj
  | cons (k : String) (v : Json) (tl : JsonObj) : JsonObj
  deriving DecidableEq

end

namespace JsonObj

/-- Model of `d.get(k)`: first value stored under `k`, if any. -/
def get : JsonObj → String → Option Json
  | nil, _ => none
  | cons k v tl, key => if k = key then some v else tl.get key

/-- Model of `d[k] = v`: replace the value at the first occurrence of `k`, keeping
its position, or append the binding at the end (Python dict assignment). -/
def set : JsonObj → String → Json → JsonObj
  | nil, key, v => cons key v nil
  | cons k w tl, key, v =>
    if k = key then cons k v tl else cons k w (tl.set key v)

/-- Number of fields. -/
def length : JsonObj → Nat
  | nil => 0
  | cons _ _ tl => tl.length + 1

end JsonObj

namespace JsonList

/-- Number of elements. -/
def length : JsonList → Nat
  | nil => 0
  | cons _ tl => tl.length + 1

end JsonList

namespace Json

/-- Model of `d.get(k, default)` on a value known to be used as a dict; on a
non-object the servers only reach this inside `except`-guarded code, and
the model returns the default there. -/
def getD (j : Json) (key : String) (d : Json) : Json :=
  match j with
  | obj o => (o.get key).getD d
  | _ => d

/-- Model of `d.get(k)` returning `None` when missing or when `j` is not a dict. -/
def get? (j : Json) (key : String) : Option Json :=
  match j with
  | obj o => o.get key
  | _ => none

/-- Python truthiness of a parsed JSON value (`if value:`). -/
def pyTruthy : Json → Bool
  | null => false
  | bool b => b
  | num n => n != 0
  | str s => s ≠ ""
  | arr JsonList.nil => false
  | arr (JsonList.cons _ _) => true
  | obj JsonObj.nil => false
  | obj (JsonObj.cons _ _ _) => true

/-- Python truthiness of `d.get(k)` (missing key is `None`, hence falsy). -/
def truthyField (j : Json) (key : String) : Bool :=
  match j.get? key with
  | none => false
  | some v => pyTruthy v

end Json

/-- Escape one character the way the JSON serializer quotes string
content: `"` and `\` get a backslash, control characters become a
`\u00XX` sequence, everything else is passed through. -/
def escChar (c : Char) : List Char :=
  if c = qt then [bs, qt]
  else if c = bs then [bs, bs]
  else if c.toNat < 32 then
    [bs, 'u', '0', '0', hexDigit (c.toNat / 16), hexDigit (c.toNat % 16)]
  else [c]

/-- Escape a JSON string body. -/
def escape : List Char → List Char
  | [] => []
  | c :: r => escChar c ++ escape r

/-- The quoted, escaped form of a string. -/
def quoteStr (s : String) : List Char := qt :: escape s.data ++ [qt]

/-- Characters of an integer in decimal notation. -/
def intChars (n : Int) : List Char :=
  if n < 0 then '-' :: natDigits n.natAbs else natDigits n.natAbs

/-- Model of `n` spaces. -/
def spaces (n : Nat) : List Char := List.replicate n ' '

mutual

/-- Pretty-print a JSON value at indentation level `i`, following
`json.dumps(value, indent=2)`: containers open on their own line, items
are indented two further spaces, and the closing bracket returns to the
enclosing level. -/
def printVal (i : Nat) : Json → List Char
  | Json.null => 'n' :: 'u' :: 'l' :: 'l' :: []
  | Json.bool true => 't' :: 'r' :: 'u' :: 'e' :: []
  | Json.bool false => 'f' :: 'a' :: 'l' :: 's' :: 'e' :: []
  | Json.num n => intChars n
  | Json.str s => quoteStr s
  | Json.arr JsonList.nil => '[' :: ']' :: []
  | Json.arr (JsonList.cons h t) =>
    '[' :: '\n' :: spaces (i + 2) ++ printVal (i + 2) h ++
      printItems (i + 2) t ++ '\n' :: spaces i ++ [']']
  | Json.obj JsonObj.nil => lbr :: rbr :: []
  | Json.obj (JsonObj.cons k v t) =>
    lbr :: '\n' :: spaces (i + 2) ++ quoteStr k ++ ':' :: ' ' ::
      printVal (i + 2) v ++ printFields (i + 2) t ++ '\n' :: spaces i ++ [rbr]

/-- Remaining array items, each preceded by `,\n` and indentation. -/
def printItems (i : Nat) : JsonList → List Char
  | JsonList.nil => []
  | JsonList.cons h t =>
    ',' :: '\n' :: spaces i ++ printVal i h ++ printItems i t

/-- Remaining object fields, each preceded by `,\n` and indentation. -/
def printFields (i : Nat) : JsonObj → List Char
  | JsonObj.nil => []
  | JsonObj.cons k v t =>
    ',' :: '\n' :: spaces i ++ quoteStr k ++ ':' :: ' ' ::
      printVal i v ++ printFields i t

end

/-- Model of `json.dumps(value, indent=2)`. -/
def Json.dumps (v : Json) : String := ⟨printVal 0 v⟩

/-- Skip JSON whitespace. -/
def skipWs (cs : List Char) : List Char := cs.dropWhile isWsChar

/-- Parse the remainder of a quoted string (the opening quote has been
consumed); fuel bounds the number of consumed characters. -/
def parseStr : Nat → List Char → Option (List Char × List Char)
  | 0, _ => none
  | _ + 1, [] => none
  | f + 1, c :: r =>
    if c = qt then some ([], r)
    else if c = bs then
      match r with
      | [] => none
      | e :: r2 =>
        if e = qt then (parseStr f r2).map (fun p => (qt :: p.1, p.2))
        else if e = bs then (parseStr f r2).map (fun p => (bs :: p.1, p.2))
        else if e = 'n' then (parseStr f r2).map (fun p => ('\n' :: p.1, p.2))
        else if e = 't' then (parseStr f r2).map (fun p => ('\t' :: p.1, p.2))
        else if e = 'r' then
          (parseStr f r2).map (fun p => (Char.ofNat 13 :: p.1, p.2))
        else if e = '/' then (parseStr f r2).map (fun p => ('/' :: p.1, p.2))
        else if e = 'u' then
          match r2 with
          | h1 :: h2 :: h3 :: h4 :: r3 =>
            match hexVal h1, hexVal h2, hexVal h3, hexVal h4 with
            | some a, some b, some c3, some d =>
              (parseStr f r3).map
                (fun p => (Char.ofNat (a * 4096 + b * 256 + c3 * 16 + d) :: p.1, p.2))
            | _, _, _, _ => none
          | _ => none
        else none
    else (parseStr f r).map (fun p => (c :: p.1, p.2))

mutual

/-- Parse one JSON value; fuel bounds the recursion depth. -/
def parseVal : Nat → List Char → Option (Json × List Char)
  | 0, _ => none
  | f + 1, cs =>
    match skipWs cs with
    | [] => none
    | c :: r =>
      if c = 'n' then
        match r with
        | 'u' :: 'l' :: 'l' :: r2 => some (Json.null, r2)
        | _ => none
      else if c = 't' then
        match r with
        | 'r' :: 'u' :: 'e' :: r2 => some (Json.bool true, r2)
        | _ => none
      else if c = 'f' then
        match r with
        | 'a' :: 'l' :: 's' :: 'e' :: r2 => some (Json.bool false, r2)
        | _ => none
      else if c = qt then
        match parseStr (r.length + 1) r with
        | some (s, r2) => some (Json.str ⟨s⟩, r2)
        | none => none
      else if c = '[' then
        match skipWs r with
        | [] => none
        | c2 :: r2 =>
          if c2 = ']' then some (Json.arr JsonList.nil, r2)
          else
            match parseVal f (c2 :: r2) with
            | some (v, r3) =>
              match parseItems f r3 with
              | some (t, r4) => some (Json.arr (JsonList.cons v t), r4)
              | none => none
            | none => none
      else if c = lbr then
        match skipWs r with
        | c2 :: r1 =>
          if c2 = rbr then some (Json.obj JsonObj.nil, r1)
          else if c2 = qt then
            match parseStr (r1.length + 1) r1 with
            | some (k, r2) =>
              match skipWs r2 with
              | c3 :: r3 =>
                if c3 = ':' then
                  match parseVal f r3 with
                  | some (v, r4) =>
                    match parseFields f r4 with
                    | some (t, r5) =>
                      some (Json.obj (JsonObj.cons ⟨k⟩ v t), r5)
                    | none => none
                  | none => none
                else none
              | [] => none
            | none => none
          else none
        | [] => none
      else if c = '-' then
        match r with
        | d :: _ =>
          if isDigitChar d then
            let p := parseDigitsAux r 0
            some (Json.num (-(p.1 : Int)), p.2)
          else none
        | [] => none
      else if isDigitChar c then
        let p := parseDigitsAux (c :: r) 0
        some (Json.num (p.1 : Int), p.2)
      else none

/-- Parse the remaining items of an array (after the first element). -/
def parseItems : Nat → List Char → Option (JsonList × List Char)
  | 0, _ => none
  | f + 1, cs =>
    match skipWs cs with
    | [] => none
    | c :: r =>
      if c = ']' then some (JsonList.nil, r)
      else if c = ',' then
        match parseVal f r with
        | some (v, r2) =>
          match parseItems f r2 with
          | some (t, r3) => some (JsonList.cons v t, r3)
          | none => none
        | none => none
      else none

/-- Parse the remaining fields of an object (after the first field). -/
def parseFields : Nat → List Char → Option (JsonObj × List Char)
  | 0, _ => none
  | f + 1, cs =>
    match skipWs cs with
    | c :: r =>
      if c = rbr then some (JsonObj.nil, r)
      else if c = ',' then
        match skipWs r with
        | c2 :: r1 =>
          if c2 = qt then
            match parseStr (r1.length + 1) r1 with
            | some (k, r2) =>
              match skipWs r2 with
              | ':' :: r3 =>
                match parseVal f r3 with
                | some (v, r4) =>
                  match parseFields f r4 with
                  | some (t, r5) => some (JsonObj.cons ⟨k⟩ v t, r5)
                  | none => none
                | none => none
              | _ => none
            | none => none
          else none
        | [] => none
      else none
    | [] => none

end

/-- Model of `json.loads`: parse a complete JSON document, allowing only trailing
whitespace. -/
def parseJson (s : String) : Option Json :=
  match parseVal (s.data.length + 1) s.data with
  | some (v, rest) => if skipWs rest = [] then some v else none
  | none => none

/-- A character list that does not start with a decimal digit (so that a
number printed in front of it parses back unchanged). -/
def noDigitB : List Char → Bool
  | [] => true
  | c :: _ => !isDigitChar c

mutual

/-- Fuel needed by `parseVal` to parse a printed value. -/
def szV : Json → Nat
  | Json.null => 1
  | Json.bool _ => 1
  | Json.num _ => 1
  | Json.str _ => 1
  | Json.arr l => 1 + szL l
  | Json.obj o => 1 + szO o

/-- Fuel needed by `parseItems` for the tail of a printed array. -/
def szL : JsonList → Nat
  | JsonList.nil => 1
  | JsonList.cons h t => 1 + szV h + szL t

/-- Fuel needed by `parseFields` for the tail of a printed object. -/
def szO : JsonObj → Nat
  | JsonObj.nil => 1
  | JsonObj.cons _ v t => 1 + szV v + szO t

end

theorem string_mk_data (s : String) : String.mk s.data = s := by
  cases s
  rfl

theorem skipWs_cons_ws {c : Char} (h : isWsChar c = true) (l : List Char) :
    skipWs (c :: l) = skipWs l := by
  simp [skipWs, List.dropWhile, h]

theorem skipWs_cons_nws {c : Char} (h : isWsChar c = false) (l : List Char) :
    skipWs (c :: l) = c :: l := by
  simp [skipWs, List.dropWhile, h]

theorem skipWs_spaces (n : Nat) (l : List Char) :
    skipWs (spaces n ++ l) = skipWs l := by
  induction n with
  | zero => rfl
  | succ m ih =>
    have : spaces (m + 1) = ' ' :: spaces m := by
      simp [spaces, List.replicate]
    rw [this, List.cons_append, skipWs_cons_ws (by decide), ih]

theorem skipWs_idem (l : List Char) : skipWs (skipWs l) = skipWs l :=
  List.dropWhile_idempotent isWsChar l

theorem parseVal_congr (f : Nat) {cs cs' : List Char}
    (h : skipWs cs = skipWs cs') : parseVal f cs = parseVal f cs' := by
  cases f with
  | zero => rfl
  | succ f => simp only [parseVal, h]

theorem isWsChar_toNat {c : Char} (h : isWsChar c = true) :
    c.toNat = 32 ∨ c.toNat = 10 ∨ c.toNat = 9 ∨ c.toNat = 13 := by
  simp only [isWsChar, Bool.or_eq_true, beq_iff_eq] at h
  rcases h with ((h | h) | h) | h
  · subst h; left; rfl
  · subst h; right; left; rfl
  · subst h; right; right; left; rfl
  · rw [← h]; right; right; right; rfl

theorem digitChar_toNat {d : Nat} (h : d < 10) : (digitChar d).toNat = 48 + d := by
  interval_cases d <;> decide

theorem isDigitChar_digitChar {d : Nat} (h : d < 10) :
    isDigitChar (digitChar d) = true := by
  interval_cases d <;> decide

theorem isDigitChar_bounds {c : Char} (h : isDigitChar c = true) :
    48 ≤ c.toNat ∧ c.toNat ≤ 57 := by
  simp only [isDigitChar, Bool.and_eq_true, decide_eq_true_eq] at h
  exact h

theorem isDigitChar_not_ws {c : Char} (h : isDigitChar c = true) :
    isWsChar c = false := by
  cases hw : isWsChar c with
  | false => rfl
  | true =>
    have h1 := isDigitChar_bounds h
    have h2 := isWsChar_toNat hw
    omega

theorem isDigitChar_ne {c c' : Char} (h : isDigitChar c = true)
    (h' : isDigitChar c' = false) : c ≠ c' := by
  intro hc
  rw [hc, h'] at h
  exact absurd h (by decide)

theorem natDigitsF_congr : ∀ (f : Nat) (f' n : Nat), n < f → n < f' →
    natDigitsF f n = natDigitsF f' n := by
  intro f
  induction f with
  | zero => intro f' n h; omega
  | succ f ih =>
    intro f' n h h'
    cases f' with
    | zero => omega
    | succ f' =>
      by_cases h10 : n < 10
      · simp [natDigitsF, h10]
      · have hrec : n / 10 < n := Nat.div_lt_self (by omega) (by omega)
        simp only [natDigitsF, h10, if_false]
        rw [ih f' (n / 10) (by omega) (by omega)]

theorem natDigits_lt10 {n : Nat} (h : n < 10) : natDigits n = [digitChar n] := by
  simp [natDigits, natDigitsF, h]

theorem natDigits_ge10 {n : Nat} (h : 10 ≤ n) :
    natDigits n = natDigits (n / 10) ++ [digitChar (n % 10)] := by
  have hrec : n / 10 < n := Nat.div_lt_self (by omega) (by omega)
  have h10 : ¬n < 10 := by omega
  have h1 : natDigits n = natDigitsF n (n / 10) ++ [digitChar (n % 10)] := by
    rw [natDigits,
      show natDigitsF (n + 1) n = if n < 10 then [digitChar n]
        else natDigitsF n (n / 10) ++ [digitChar (n % 10)] from rfl,
      if_neg h10]
  rw [h1, natDigitsF_congr n (n / 10 + 1) (n / 10) (by omega) (by omega)]
  rfl

theorem natDigits_head : ∀ n : Nat, ∃ c cs, natDigits n = c :: cs ∧
    isDigitChar c = true := by
  intro n
  induction n using Nat.strong_induction_on with
  | _ n ih =>
    by_cases h : n < 10
    · exact ⟨digitChar n, [], natDigits_lt10 h, isDigitChar_digitChar h⟩
    · have hrec : n / 10 < n := Nat.div_lt_self (by omega) (by omega)
      obtain ⟨c, cs, hd, hdig⟩ := ih (n / 10) hrec
      exact ⟨c, cs ++ [digitChar (n % 10)], by
        rw [natDigits_ge10 (by omega), hd]; rfl, hdig⟩

theorem parseDigitsAux_natDigits : ∀ (m : Nat) (rest : List Char) (acc : Nat),
    parseDigitsAux (natDigits m ++ rest) acc =
      parseDigitsAux rest (acc * 10 ^ (natDigits m).length + m) := by
  intro m
  induction m using Nat.strong_induction_on with
  | _ m ih =>
    intro rest acc
    by_cases h : m < 10
    · rw [natDigits_lt10 h]
      simp only [List.cons_append, List.nil_append, parseDigitsAux,
        isDigitChar_digitChar h, if_true, digitChar_toNat h,
        List.length_singleton, pow_one]
      congr 1
      omega
    · have hrec : m / 10 < m := Nat.div_lt_self (by omega) (by omega)
      rw [natDigits_ge10 (by omega), List.append_assoc, ih (m / 10) hrec]
      have hmod : m % 10 < 10 := Nat.mod_lt _ (by omega)
      simp only [List.cons_append, List.nil_append, parseDigitsAux,
        isDigitChar_digitChar hmod, if_true, digitChar_toNat hmod]
      congr 1
      have hsub : 48 + m % 10 - 48 = m % 10 := by omega
      rw [hsub, List.length_append, List.length_singleton, pow_succ]
      have hdm : 10 * (m / 10) + m % 10 = m := Nat.div_add_mod m 10
      calc (acc * 10 ^ (natDigits (m / 10)).length + m / 10) * 10 + m % 10
          = acc * (10 ^ (natDigits (m / 10)).length * 10) +
              (10 * (m / 10) + m % 10) := by ring
        _ = acc * (10 ^ (natDigits (m / 10)).length * 10) + m := by rw [hdm]

theorem parseDigitsAux_stop {rest : List Char} (acc : Nat)
    (h : noDigitB rest = true) : parseDigitsAux rest acc = (acc, rest) := by
  cases rest with
  | nil => rfl
  | cons c r =>
    simp only [noDigitB, Bool.not_eq_true'] at h
    simp [parseDigitsAux, h]

theorem parseDigits_natDigits {rest : List Char} (m : Nat)
    (h : noDigitB rest = true) :
    parseDigitsAux (natDigits m ++ rest) 0 = (m, rest) := by
  rw [parseDigitsAux_natDigits, parseDigitsAux_stop _ h, Nat.zero_mul,
    Nat.zero_add]

theorem hexVal_hexDigit {d : Nat} (h : d < 16) : hexVal (hexDigit d) = some d := by
  interval_cases d <;> decide

theorem parseStr_escape : ∀ (l : List Char) (f : Nat) (rest : List Char),
    (escape l).length + 1 ≤ f →
    parseStr f (escape l ++ qt :: rest) = some (l, rest) := by
  intro l
  induction l with
  | nil =>
    intro f rest hf
    cases f with
    | zero => omega
    | succ f => simp [escape, parseStr]
  | cons c l ih =>
    intro f rest hf
    by_cases hq : c = qt
    · subst hq
      have he : escape (qt :: l) = bs :: qt :: escape l := by
        simp [escape, escChar]
      rw [he] at hf ⊢
      cases f with
      | zero => simp at hf
      | succ f =>
        simp only [List.cons_append]
        rw [show parseStr (f + 1) (bs :: qt :: (escape l ++ qt :: rest)) =
          (parseStr f (escape l ++ qt :: rest)).map
            (fun p => (qt :: p.1, p.2)) from rfl]
        rw [ih f rest (by simp at hf; omega)]
        rfl
    · by_cases hb : c = bs
      · subst hb
        have he : escape (bs :: l) = bs :: bs :: escape l := by
          simp [escape, escChar, hq]
        rw [he] at hf ⊢
        cases f with
        | zero => simp at hf
        | succ f =>
          simp only [List.cons_append]
          rw [show parseStr (f + 1) (bs :: bs :: (escape l ++ qt :: rest)) =
            (parseStr f (escape l ++ qt :: rest)).map
              (fun p => (bs :: p.1, p.2)) from rfl]
          rw [ih f rest (by simp at hf; omega)]
          rfl
      · by_cases h32 : c.toNat < 32
        · have he : escape (c :: l) =
              bs :: 'u' :: '0' :: '0' :: hexDigit (c.toNat / 16) ::
                hexDigit (c.toNat % 16) :: escape l := by
            simp [escape, escChar, hq, hb, h32]
          rw [he] at hf ⊢
          cases f with
          | zero => simp at hf
          | succ f =>
            simp only [List.cons_append]
            rw [show ∀ x1 x2 x3 x4 r3, parseStr (f + 1)
                (bs :: 'u' :: x1 :: x2 :: x3 :: x4 :: r3) =
              (match hexVal x1, hexVal x2, hexVal x3, hexVal x4 with
               | some a, some b, some c3, some d =>
                 (parseStr f r3).map
                   (fun p =>
                     (Char.ofNat (a * 4096 + b * 256 + c3 * 16 + d) :: p.1,
                      p.2))
               | _, _, _, _ => none) from fun _ _ _ _ _ => rfl]
            have hd1 : hexVal '0' = some 0 := by decide
            have hd3 : hexVal (hexDigit (c.toNat / 16)) = some (c.toNat / 16) :=
              hexVal_hexDigit (by omega)
            have hd4 : hexVal (hexDigit (c.toNat % 16)) = some (c.toNat % 16) :=
              hexVal_hexDigit (by omega)
            rw [hd1, hd3, hd4]
            have hc : Char.ofNat (0 * 4096 + 0 * 256 + c.toNat / 16 * 16 +
                c.toNat % 16) = c := by
              have hn : 0 * 4096 + 0 * 256 + c.toNat / 16 * 16 + c.toNat % 16 =
                  c.toNat := by omega
              rw [hn, Char.ofNat_toNat]
            simp only []
            rw [ih f rest (by simp at hf; omega), hc]
            rfl
        · have he : escape (c :: l) = c :: escape l := by
            simp [escape, escChar, hq, hb, h32]
          rw [he] at hf ⊢
          cases f with
          | zero => simp at hf
          | succ f =>
            simp only [List.cons_append]
            rw [show parseStr (f + 1) (c :: (escape l ++ qt :: rest)) =
              if c = qt then some ([], escape l ++ qt :: rest)
              else if c = bs then
                (match escape l ++ qt :: rest with
                 | [] => none
                 | e :: r2 =>
                   if e = qt then (parseStr f r2).map (fun p => (qt :: p.1, p.2))
                   else if e = bs then
                     (parseStr f r2).map (fun p => (bs :: p.1, p.2))
                   else if e = 'n' then
                     (parseStr f r2).map (fun p => ('\n' :: p.1, p.2))
                   else if e = 't' then
                     (parseStr f r2).map (fun p => ('\t' :: p.1, p.2))
                   else if e = 'r' then
                     (parseStr f r2).map (fun p => (Char.ofNat 13 :: p.1, p.2))
                   else if e = '/' then
                     (parseStr f r2).map (fun p => ('/' :: p.1, p.2))
                   else if e = 'u' then
                     match r2 with
                     | h1 :: h2 :: h3 :: h4 :: r3 =>
                       match hexVal h1, hexVal h2, hexVal h3, hexVal h4 with
                       | some a, some b, some c3, some d =>
                         (parseStr f r3).map
                           (fun p =>
                             (Char.ofNat (a * 4096 + b * 256 + c3 * 16 + d)
                                :: p.1, p.2))
                       | _, _, _, _ => none
                     | _ => none
                   else none)
              else (parseStr f (escape l ++ qt :: rest)).map
                (fun p => (c :: p.1, p.2)) from rfl]
            rw [if_neg hq, if_neg hb, ih f rest (by simp at hf; omega)]
            rfl

theorem noDigitB_cons {c : Char} (h : isDigitChar c = false) (l : List Char) :
    noDigitB (c :: l) = true := by
  simp [noDigitB, h]

theorem noDigitB_printItems (i : Nat) (t : JsonList) (l : List Char) :
    noDigitB (printItems i t ++ '\n' :: l) = true := by
  cases t with
  | nil => exact noDigitB_cons (by decide) l
  | cons h t =>
    simp only [printItems, List.cons_append]
    exact noDigitB_cons (by decide) _

theorem noDigitB_printFields (i : Nat) (t : JsonObj) (l : List Char) :
    noDigitB (printFields i t ++ '\n' :: l) = true := by
  cases t with
  | nil => exact noDigitB_cons (by decide) l
  | cons k v t =>
    simp only [printFields, List.cons_append]
    exact noDigitB_cons (by decide) _

theorem printVal_head (i : Nat) (v : Json) : ∃ c cs, printVal i v = c :: cs ∧
    isWsChar c = false ∧ c ≠ ']' ∧ c ≠ rbr := by
  cases v with
  | num n =>
    by_cases hn : n < 0
    · refine ⟨'-', natDigits n.natAbs, ?_, ?_, ?_, ?_⟩
      · simp [printVal, intChars, hn]
      all_goals decide
    · obtain ⟨c, cs, hd, hdig⟩ := natDigits_head n.natAbs
      refine ⟨c, cs, ?_, isDigitChar_not_ws hdig,
        isDigitChar_ne hdig (by decide), isDigitChar_ne hdig (by decide)⟩
      simp [printVal, intChars, hn, hd]
  | str s =>
    refine ⟨qt, escape s.data ++ [qt], rfl, ?_, ?_, ?_⟩ <;> decide
  | null => refine ⟨'n', _, rfl, ?_, ?_, ?_⟩ <;> decide
  | bool b =>
    rcases b with _ | _
    · refine ⟨'f', _, rfl, ?_, ?_, ?_⟩ <;> decide
    · refine ⟨'t', _, rfl, ?_, ?_, ?_⟩ <;> decide
  | arr l =>
    rcases l with _ | ⟨h, t⟩ <;>
      exact ⟨'[', _, rfl, by decide, by decide, by decide⟩
  | obj o =>
    rcases o with _ | ⟨k, v, t⟩ <;>
      exact ⟨lbr, _, rfl, by decide, by decide, by decide⟩

mutual

theorem parseVal_print (v : Json) (i f : Nat) (rest : List Char)
    (hf : szV v ≤ f) (hrest : noDigitB rest = true) :
    parseVal f (printVal i v ++ rest) = some (v, rest) := by
  cases v with
  | null =>
    cases f with
    | zero => simp [szV] at hf
    | succ f => rfl
  | bool b =>
    cases f with
    | zero => simp [szV] at hf
    | succ f => cases b <;> rfl
  | num n =>
    cases f with
    | zero => simp [szV] at hf
    | succ f =>
      by_cases hn : n < 0
      · have hp : printVal i (Json.num n) = '-' :: natDigits n.natAbs := by
          simp [printVal, intChars, hn]
        obtain ⟨c, cs, hd, hdig⟩ := natDigits_head n.natAbs
        rw [hp, hd, List.cons_append, List.cons_append]
        rw [show ∀ x xs, parseVal (f + 1) ('-' :: x :: xs) =
          (if isDigitChar x then
            some (Json.num (-(((parseDigitsAux (x :: xs) 0).1 : Nat) : Int)),
              (parseDigitsAux (x :: xs) 0).2)
          else none) from fun _ _ => rfl]
        rw [if_pos hdig]
        rw [show c :: (cs ++ rest) = (c :: cs) ++ rest from rfl, ← hd,
          parseDigits_natDigits n.natAbs hrest]
        have hval : (-((n.natAbs : Nat) : Int)) = n := by omega
        rw [hval]
      · have hp : printVal i (Json.num n) = natDigits n.natAbs := by
          simp [printVal, intChars, hn]
        obtain ⟨c, cs, hd, hdig⟩ := natDigits_head n.natAbs
        rw [hp, hd, List.cons_append]
        have hw : isWsChar c = false := isDigitChar_not_ws hdig
        simp only [parseVal, skipWs_cons_nws hw,
          if_neg (isDigitChar_ne hdig (by decide : isDigitChar 'n' = false)),
          if_neg (isDigitChar_ne hdig (by decide : isDigitChar 't' = false)),
          if_neg (isDigitChar_ne hdig (by decide : isDigitChar 'f' = false)),
          if_neg (isDigitChar_ne hdig (by decide : isDigitChar qt = false)),
          if_neg (isDigitChar_ne hdig (by decide : isDigitChar '[' = false)),
          if_neg (isDigitChar_ne hdig (by decide : isDigitChar lbr = false)),
          if_neg (isDigitChar_ne hdig (by decide : isDigitChar '-' = false)),
          hdig, if_true]
        rw [show c :: (cs ++ rest) = (c :: cs) ++ rest from rfl, ← hd,
          parseDigits_natDigits n.natAbs hrest]
        have hval : ((n.natAbs : Nat) : Int) = n := by omega
        rw [hval]
  | str s =>
    cases f with
    | zero => simp [szV] at hf
    | succ f =>
      have hp : printVal i (Json.str s) ++ rest =
          qt :: (escape s.data ++ qt :: rest) := by
        simp [printVal, quoteStr]
      rw [hp]
      rw [show ∀ x, parseVal (f + 1) (qt :: x) =
        (match parseStr (x.length + 1) x with
         | some (s1, r2) => some (Json.str ⟨s1⟩, r2)
         | none => none) from fun _ => rfl]
      rw [parseStr_escape s.data _ rest (by rw [List.length_append]; omega)]
  | arr l =>
    cases l with
    | nil =>
      cases f with
      | zero => simp [szV, szL] at hf
      | succ f => rfl
    | cons h t =>
      cases f with
      | zero => simp [szV, szL] at hf
      | succ f =>
        have hfh : szV h ≤ f := by simp [szV, szL] at hf; omega
        have hft : szL t ≤ f := by simp [szV, szL] at hf; omega
        have hp : printVal i (Json.arr (JsonList.cons h t)) ++ rest =
            '[' :: ('\n' :: (spaces (i + 2) ++ (printVal (i + 2) h ++
              (printItems (i + 2) t ++
                '\n' :: (spaces i ++ (']' :: rest)))))) := by
          simp [printVal]
        rw [hp]
        rw [show ∀ x, parseVal (f + 1) ('[' :: x) =
          (match skipWs x with
           | [] => none
           | c2 :: r2 =>
             if c2 = ']' then some (Json.arr JsonList.nil, r2)
             else
               match parseVal f (c2 :: r2) with
               | some (v, r3) =>
                 match parseItems f r3 with
                 | some (t2, r4) => some (Json.arr (JsonList.cons v t2), r4)
                 | none => none
               | none => none) from fun _ => rfl]
        obtain ⟨c0, cs0, hh, hw0, hnb, _⟩ := printVal_head (i + 2) h
        rw [skipWs_cons_ws (by decide), skipWs_spaces, hh, List.cons_append,
          skipWs_cons_nws hw0]
        simp only []
        rw [if_neg hnb]
        rw [show c0 :: (cs0 ++ (printItems (i + 2) t ++
            '\n' :: (spaces i ++ (']' :: rest)))) =
          (c0 :: cs0) ++ (printItems (i + 2) t ++
            '\n' :: (spaces i ++ (']' :: rest))) from rfl, ← hh]
        rw [parseVal_print h (i + 2) f _ hfh (by
          have := noDigitB_printItems (i + 2) t (spaces i ++ (']' :: rest))
          simpa using this)]
        have hitems := parseItems_print t (i + 2) i f rest hft
        simp only [List.cons_append, List.append_assoc] at hitems ⊢
        rw [hitems]
  | obj o =>
    cases o with
    | nil =>
      cases f with
      | zero => simp [szV, szO] at hf
      | succ f => rfl
    | cons k v t =>
      cases f with
      | zero => simp [szV, szO] at hf
      | succ f =>
        have hfv : szV v ≤ f := by simp [szV, szO] at hf; omega
        have hft : szO t ≤ f := by simp [szV, szO] at hf; omega
        have hp : printVal i (Json.obj (JsonObj.cons k v t)) ++ rest =
            lbr :: ('\n' :: (spaces (i + 2) ++ (qt ::
              (escape k.data ++ qt :: (':' :: (' ' :: (printVal (i + 2) v ++
                (printFields (i + 2) t ++
                  '\n' :: (spaces i ++ (rbr :: rest)))))))))) := by
          simp [printVal, quoteStr]
        rw [hp]
        rw [show ∀ x, parseVal (f + 1) (lbr :: x) =
          (match skipWs x with
           | c2 :: r1 =>
             if c2 = rbr then some (Json.obj JsonObj.nil, r1)
             else if c2 = qt then
               match parseStr (r1.length + 1) r1 with
               | some (k1, r2) =>
                 match skipWs r2 with
                 | c3 :: r3 =>
                   if c3 = ':' then
                     match parseVal f r3 with
                     | some (v1, r4) =>
                       match parseFields f r4 with
                       | some (t1, r5) =>
                         some (Json.obj (JsonObj.cons ⟨k1⟩ v1 t1), r5)
                       | none => none
                     | none => none
                   else none
                 | [] => none
               | none => none
             else none
           | [] => none) from fun _ => rfl]
        rw [skipWs_cons_ws (by decide), skipWs_spaces,
          skipWs_cons_nws (by decide)]
        simp only []
        rw [if_neg (by decide : ¬qt = rbr), if_pos trivial]
        rw [parseStr_escape k.data _ _ (by rw [List.length_append]; omega)]
        have hv := parseVal_print v (i + 2) f
          (printFields (i + 2) t ++ '\n' :: (spaces i ++ rbr :: rest)) hfv
          (by simpa using
            noDigitB_printFields (i + 2) t (spaces i ++ rbr :: rest))
        have hsp : parseVal f (' ' :: (printVal (i + 2) v ++
            (printFields (i + 2) t ++ '\n' :: (spaces i ++ rbr :: rest)))) =
            some (v, printFields (i + 2) t ++
              '\n' :: (spaces i ++ rbr :: rest)) := by
          rw [parseVal_congr f (skipWs_cons_ws (by decide) _)]
          exact hv
        have hfields := parseFields_print t (i + 2) i f rest hft
        simp only [List.cons_append, List.append_assoc] at hsp hfields ⊢
        simp [skipWs, List.dropWhile, isWsChar, hsp, hfields, string_mk_data]

theorem parseItems_print (l : JsonList) (i j f : Nat) (rest : List Char)
    (hf : szL l ≤ f) :
    parseItems f (printItems i l ++ '\n' :: (spaces j ++ (']' :: rest))) =
      some (l, rest) := by
  cases l with
  | nil =>
    cases f with
    | zero => simp [szL] at hf
    | succ f =>
      simp only [printItems, List.nil_append, parseItems]
      rw [skipWs_cons_ws (by decide), skipWs_spaces,
        skipWs_cons_nws (by decide)]
      simp
  | cons h t =>
    cases f with
    | zero => simp [szL] at hf
    | succ f =>
      have hfh : szV h ≤ f := by simp [szL] at hf; omega
      have hft : szL t ≤ f := by simp [szL] at hf; omega
      have hp : printItems i (JsonList.cons h t) ++
          '\n' :: (spaces j ++ (']' :: rest)) =
          ',' :: ('\n' :: (spaces i ++ (printVal i h ++ (printItems i t ++
            '\n' :: (spaces j ++ (']' :: rest)))))) := by
        simp [printItems]
      rw [hp]
      rw [show ∀ x, parseItems (f + 1) (',' :: x) =
        (match parseVal f x with
         | some (v, r2) =>
           match parseItems f r2 with
           | some (t2, r3) => some (JsonList.cons v t2, r3)
           | none => none
         | none => none) from fun _ => rfl]
      have hws : skipWs ('\n' :: (spaces i ++ (printVal i h ++
          (printItems i t ++ '\n' :: (spaces j ++ (']' :: rest)))))) =
          skipWs (printVal i h ++ (printItems i t ++
            '\n' :: (spaces j ++ (']' :: rest)))) := by
        rw [skipWs_cons_ws (by decide), skipWs_spaces]
      rw [parseVal_congr f hws]
      rw [parseVal_print h i f _ hfh (by
        have := noDigitB_printItems i t (spaces j ++ (']' :: rest))
        simpa using this)]
      have hitems := parseItems_print t i j f rest hft
      simp only [List.cons_append, List.append_assoc] at hitems ⊢
      rw [hitems]

theorem parseFields_print (o : JsonObj) (i j f : Nat) (rest : List Char)
    (hf : szO o ≤ f) :
    parseFields f (printFields i o ++ '\n' :: (spaces j ++ (rbr :: rest))) =
      some (o, rest) := by
  cases o with
  | nil =>
    cases f with
    | zero => simp [szO] at hf
    | succ f =>
      simp only [printFields, List.nil_append, parseFields]
      rw [skipWs_cons_ws (by decide), skipWs_spaces,
        skipWs_cons_nws (by decide)]
      simp
  | cons k v t =>
    cases f with
    | zero => simp [szO] at hf
    | succ f =>
      have hfv : szV v ≤ f := by simp [szO] at hf; omega
      have hft : szO t ≤ f := by simp [szO] at hf; omega
      have hp : printFields i (JsonObj.cons k v t) ++
          '\n' :: (spaces j ++ (rbr :: rest)) =
          ',' :: ('\n' :: (spaces i ++ (qt :: (escape k.data ++
            qt :: (':' :: (' ' :: (printVal i v ++ (printFields i t ++
              '\n' :: (spaces j ++ (rbr :: rest)))))))))) := by
        simp [printFields, quoteStr]
      rw [hp]
      simp only [parseFields]
      rw [skipWs_cons_nws (by decide)]
      simp only []
      rw [if_neg (by decide : ¬(',' : Char) = rbr), if_pos trivial]
      rw [skipWs_cons_ws (by decide), skipWs_spaces,
        skipWs_cons_nws (by decide)]
      simp only []
      rw [if_pos trivial]
      rw [parseStr_escape k.data _ _ (by rw [List.length_append]; omega)]
      have hv := parseVal_print v i f
        (printFields i t ++ '\n' :: (spaces j ++ rbr :: rest)) hfv
        (by simpa using noDigitB_printFields i t (spaces j ++ rbr :: rest))
      have hsp : parseVal f (' ' :: (printVal i v ++
          (printFields i t ++ '\n' :: (spaces j ++ rbr :: rest)))) =
          some (v, printFields i t ++ '\n' :: (spaces j ++ rbr :: rest)) := by
        rw [parseVal_congr f (skipWs_cons_ws (by decide) _)]
        exact hv
      have hfields := parseFields_print t i j f rest hft
      simp only [List.cons_append, List.append_assoc] at hsp hfields ⊢
      simp [skipWs, List.dropWhile, isWsChar, hsp, hfields, string_mk_data]

end

mutual

theorem szV_le_len (v : Json) (i : Nat) : szV v ≤ (printVal i v).length + 1 := by
  cases v with
  | null => simp [szV, printVal]
  | bool b => cases b <;> simp [szV, printVal]
  | num n => simp [szV]
  | str s => simp [szV]
  | arr l =>
    cases l with
    | nil => simp [szV, szL, printVal]
    | cons h t =>
      have h1 := szV_le_len h (i + 2)
      have h2 := szL_le_len t (i + 2)
      simp only [szV, szL, printVal, List.length_cons, List.length_append]
      omega
  | obj o =>
    cases o with
    | nil => simp [szV, szO, printVal]
    | cons k v t =>
      have h1 := szV_le_len v (i + 2)
      have h2 := szO_le_len t (i + 2)
      simp only [szV, szO, printVal, List.length_cons, List.length_append]
      omega

theorem szL_le_len (l : JsonList) (i : Nat) :
    szL l ≤ (printItems i l).length + 1 := by
  cases l with
  | nil => simp [szL, printItems]
  | cons h t =>
    have h1 := szV_le_len h i
    have h2 := szL_le_len t i
    simp only [szL, printItems, List.length_cons, List.length_append]
    omega

theorem szO_le_len (o : JsonObj) (i : Nat) :
    szO o ≤ (printFields i o).length + 1 := by
  cases o with
  | nil => simp [szO, printFields]
  | cons k v t =>
    have h1 := szV_le_len v i
    have h2 := szO_le_len t i
    simp only [szO, printFields, List.length_cons, List.length_append]
    omega

end

/-- Serializing any JSON value with the 2-space pretty printer and parsing
the text back yields the original value. -/
theorem parse_dumps (v : Json) : parseJson (Json.dumps v) = some v := by
  have h1 : parseVal ((printVal 0 v).length + 1) (printVal 0 v ++ []) =
      some (v, []) :=
    parseVal_print v 0 _ [] (szV_le_len v 0) rfl
  rw [List.append_nil] at h1
  show (match parseVal ((printVal 0 v).length + 1) (printVal 0 v) with
    | some (w, rest) => if skipWs rest = [] then some w else none
    | none => none) = some v
  rw [h1]
  rfl

/-! ## Python-level helpers shared by the three servers -/

/-- The whitespace set of Python `str.strip()`. -/
def isPySpace (c : Char) : Bool :=
  c == ' ' || c == '\t' || c == '\n' || Char.ofNat 13 == c ||
    Char.ofNat 11 == c || Char.ofNat 12 == c

/-- Python `s.strip()`. -/
def pyStrip (s : String) : String :=
  ⟨((s.data.dropWhile isPySpace).reverse.dropWhile isPySpace).reverse⟩

/-- Model of `not s.strip()`: the validation test used for required parameters. -/
def isBlank (s : String) : Bool := (pyStrip s).data.isEmpty

/-- Wrap a string in single quotes, as Python `repr` does. -/
def sqWrap (s : String) : String := ⟨[sq]⟩ ++ s ++ ⟨[sq]⟩

mutual

/-- Model of Python `repr` on parsed JSON values (used by `str()` on
containers when they are interpolated into f-strings). -/
def pyRepr : Json → String
  | Json.null => "None"
  | Json.bool true => "True"
  | Json.bool false => "False"
  | Json.num n => ⟨intChars n⟩
  | Json.str s => sqWrap s
  | Json.arr l => "[" ++ pyReprItems l ++ "]"
  | Json.obj o => ⟨[lbr]⟩ ++ pyReprFields o ++ ⟨[rbr]⟩

/-- Comma-joined `repr`s of list elements. -/
def pyReprItems : JsonList → String
  | JsonList.nil => ""
  | JsonList.cons h JsonList.nil => pyRepr h
  | JsonList.cons h t => pyRepr h ++ ", " ++ pyReprItems t

/-- Comma-joined `repr`s of dict entries. -/
def pyReprFields : JsonObj → String
  | JsonObj.nil => ""
  | JsonObj.cons k v JsonObj.nil => sqWrap k ++ ": " ++ pyRepr v
  | JsonObj.cons k v t => sqWrap k ++ ": " ++ pyRepr v ++ ", " ++ pyReprFields t

end

/-- Model of Python `str()` on a parsed JSON value, as used when the value
is interpolated into an f-string. -/
def pyToStr : Json → String
  | Json.str s => s
  | v => pyRepr v

/-- Elements of a `JsonList` as a Lean list. -/
def JsonList.toList : JsonList → List Json
  | JsonList.nil => []
  | JsonList.cons h t => h :: t.toList

/-- Model of `" ".join(...)` over a JSON array (elements shown with `str()`). -/
def spaceJoin (j : Json) : String :=
  match j with
  | Json.arr l => String.intercalate " " (l.toList.map pyToStr)
  | _ => ""

/-- Model of `", ".join(...)` over a JSON array (elements shown with `str()`). -/
def commaJoin (j : Json) : String :=
  match j with
  | Json.arr l => String.intercalate ", " (l.toList.map pyToStr)
  | _ => ""

/-- Model of `s[:n] + "..."` truncation applied when `len(s) > n`. -/
def truncateStr (s : String) (n : Nat) : String :=
  if s.data.length > n then ⟨s.data.take n⟩ ++ "..." else s

/-- Model of `len()` of a JSON container. -/
def jsonLen : Json → Nat
  | Json.arr l => l.length
  | Json.obj o => o.length
  | Json.str s => s.data.length
  | _ => 0

/-- Python `enumerate(actions, start)` over a JSON list. -/
def enumFrom (start : Nat) : List Json → List (Nat × Json)
  | [] => []
  | h :: t => (start, h) :: enumFrom (start + 1) t

/-! ## Transport model

HTTP traffic is represented by the request the server variant builds and
an oracle `net : Request → NetResult` standing for the remote FHIR
server.  `raise_for_status` on a non-2xx answer surfaces as an
`httpx.HTTPStatusError`; connection failures and timeouts surface as their
own exception types. -/

/-- One outbound HTTP request: method, path relative to the base URL,
optional query parameters, optional JSON body, and which configured
server ("fhir" or "matchbox") it is sent to. -/
structure Request where
  method : String
  path : String
  params : Option (List (String × String))
  body : Option Json
  server : String
  deriving DecidableEq

/-- The remote side of one request. -/
inductive NetResult where
  | ok (body : Json)
  | noContent
  | httpError (status : Nat) (text : String)
  | timeoutErr
  | connectErr
  deriving DecidableEq

/-- The Python exceptions that reach the servers' `except` clauses. -/
inductive PyExn where
  | httpStatusError (status : Nat) (text : String)
  | timeoutException
  | connectError
  | jsonDecodeError (msg : String)
  | typeError (msg : String)
  | attributeError (msg : String)
  deriving DecidableEq

/-- Decidable equality of `Except` results, for evaluating concrete
runs. -/
instance instDecEqExcept {ε α : Type} [DecidableEq ε] [DecidableEq α] :
    DecidableEq (Except ε α) := fun a b =>
  match a, b with
  | Except.ok x, Except.ok y =>
    match decEq x y with
    | Decidable.isTrue h => Decidable.isTrue (by rw [h])
    | Decidable.isFalse h =>
      Decidable.isFalse (by intro hh; injection hh; exact h (by assumption))
  | Except.ok _, Except.error _ => Decidable.isFalse (by intro hh; injection hh)
  | Except.error _, Except.ok _ => Decidable.isFalse (by intro hh; injection hh)
  | Except.error x, Except.error y =>
    match decEq x y with
    | Decidable.isTrue h => Decidable.isTrue (by rw [h])
    | Decidable.isFalse h =>
      Decidable.isFalse (by intro hh; injection hh; exact h (by assumption))

/-- Model of Python `str(e)` for the exceptions above (the transport
exception texts are runtime strings of the HTTP library; fixed
representatives are used). -/
def pyExnStr : PyExn → String
  | PyExn.httpStatusError s _ => "HTTP status error " ++ toString s
  | PyExn.timeoutException => "Request timed out"
  | PyExn.connectError => "Connection failed"
  | PyExn.jsonDecodeError m => m
  | PyExn.typeError m => m
  | PyExn.attributeError m => m

/-- Model of `type(e).__name__`. -/
def pyExnName : PyExn → String
  | PyExn.httpStatusError _ _ => "HTTPStatusError"
  | PyExn.timeoutException => "TimeoutException"
  | PyExn.connectError => "ConnectError"
  | PyExn.jsonDecodeError _ => "JSONDecodeError"
  | PyExn.typeError _ => "TypeError"
  | PyExn.attributeError _ => "AttributeError"

/-- Model of `str(e)` of the `JSONDecodeError` raised on malformed JSON (fixed
representative text). -/
def jsonDecodeMsg : String := "Expecting value: line 1 column 1 (char 0)"

/-- Model of `str(e)` of the `AttributeError` raised by `.get` on a non-dict. -/
def attrNoGetMsg : String :=
  sqWrap "list" ++ " object has no attribute " ++ sqWrap "get"

/-- Model of `str(e)` of the `TypeError` raised by `d[k] = v` on a non-dict. -/
def listIndexMsg : String :=
  "list indices must be integers or slices, not str"

/-! ## `fhir_server.py` -/

namespace FhirServer

/-- Model of `_current_ig_context`, the module-level session state
`{"id": "", "url": "", "name": ""}`. -/
structure IgContext where
  id : String
  url : String
  name : String
  deriving DecidableEq

/-- The initial (empty) ImplementationGuide context. -/
def initialIgContext : IgContext := ⟨"", "", ""⟩

/-- The synthetic body `make_fhir_request` returns on HTTP 204. -/
def deletedBody : Json :=
  Json.obj (JsonObj.cons "status" (Json.str "success")
    (JsonObj.cons "message" (Json.str "Resource deleted") JsonObj.nil))

/-- Model of `make_fhir_request`: issue one request and either return the parsed
JSON body (or the synthetic 204 body) or raise. -/
def make_fhir_request (net : Request → NetResult) (req : Request) :
    Except PyExn Json :=
  match net req with
  | NetResult.ok j => Except.ok j
  | NetResult.noContent => Except.ok deletedBody
  | NetResult.httpError s t => Except.error (PyExn.httpStatusError s t)
  | NetResult.timeoutErr => Except.error PyExn.timeoutException
  | NetResult.connectErr => Except.error PyExn.connectError

/-- Model of `format_resource_summary` (fhir_server.py): pass-through JSON in
`"json"` mode, condensed name/title/status/description lines otherwise. -/
def format_resource_summary (resource : Json) (format_type : String) :
    String :=
  if format_type = "json" then Json.dumps resource
  else
    let rt := pyToStr (resource.getD "resourceType" (Json.str "Unknown"))
    let rid := pyToStr (resource.getD "id" (Json.str "N/A"))
    let l0 := "**" ++ rt ++ "** (ID: " ++ rid ++ ")"
    let ls1 :=
      match resource.get? "name" with
      | none => []
      | some nv =>
        let nm := match nv with
          | Json.arr JsonList.nil => Json.obj JsonObj.nil
          | Json.arr (JsonList.cons h _) => h
          | v => v
        match nm with
        | Json.obj o =>
          let given := spaceJoin ((o.get "given").getD (Json.arr JsonList.nil))
          let family := pyToStr ((o.get "family").getD (Json.str ""))
          [pyStrip ("- Name: " ++ given ++ " " ++ family)]
        | v => ["- Name: " ++ pyToStr v]
    let ls2 := match resource.get? "title" with
      | none => []
      | some t => ["- Title: " ++ pyToStr t]
    let ls3 := match resource.get? "status" with
      | none => []
      | some t => ["- Status: " ++ pyToStr t]
    let ls4 := match resource.get? "description" with
      | none => []
      | some d => ["- Description: " ++ truncateStr (pyToStr d) 200]
    String.intercalate "\n" ([l0] ++ ls1 ++ ls2 ++ ls3 ++ ls4)

/-- The `❌ HTTP Error: …` line produced by the plain
`httpx.HTTPStatusError` handlers. -/
def httpErr (status : Nat) (text : String) : String :=
  "❌ HTTP Error: " ++ toString status ++ " - " ++ text

/-- The `❌ Error: …` line produced by the catch-all handlers. -/
def genericErr (e : PyExn) : String := "❌ Error: " ++ pyExnStr e

/-- Route a raised exception through the two `except` clauses shared by
most fhir_server.py tools. -/
def plainHandler (e : PyExn) : String :=
  match e with
  | PyExn.httpStatusError s t => httpErr s t
  | e => genericErr e

/-- The message of one OperationOutcome issue as extracted by the
`$apply` error handler: `diagnostics`, else `details.text`, else
`"Unknown error"`; `none` models the `AttributeError` raised when the
issue or its `details` is not a dict (the default argument of `.get` is
evaluated eagerly). -/
def issueMsg (issue : Json) : Option String :=
  match issue with
  | Json.obj o =>
    let dflt : Option String :=
      match o.get "details" with
      | none => some "Unknown error"
      | some (Json.obj d) =>
        some (match d.get "text" with
              | some t => pyToStr t
              | none => "Unknown error")
      | some _ => none
    match dflt with
    | none => none
    | some dv =>
      match o.get "diagnostics" with
      | some d => some (pyToStr d)
      | none => some dv
  | _ => none

/-- All issue messages, or `none` as soon as one extraction raises. -/
def issueMsgs : List Json → Option (List String)
  | [] => some []
  | h :: t =>
    match issueMsg h, issueMsgs t with
    | some m, some ms => some (m :: ms)
    | _, _ => none

/-- The `httpx.HTTPStatusError` handler of `fhir_apply_plan_definition`
(fhir_server.py): extract OperationOutcome issue messages — without
severity tags — or fall back to the raw status/text line. -/
def applyErrorBranch (status : Nat) (text : String) : Except PyExn String :=
  match parseJson text with
  | none => Except.ok (httpErr status text)
  | some (Json.obj o) =>
    if o.get "resourceType" = some (Json.str "OperationOutcome") then
      match o.get "issue" with
      | none => Except.ok ("❌ Operation Error:\n" ++ "")
      | some (Json.arr xs) =>
        match issueMsgs xs.toList with
        | some msgs =>
          Except.ok ("❌ Operation Error:\n" ++
            String.intercalate "\n" (msgs.map (fun m => "- " ++ m)))
        | none => Except.error (PyExn.attributeError attrNoGetMsg)
      | some (Json.str _) => Except.error (PyExn.attributeError attrNoGetMsg)
      | some (Json.obj _) => Except.error (PyExn.attributeError attrNoGetMsg)
      | some _ => Except.error (PyExn.typeError "not iterable")
    else Except.ok (httpErr status text)
  | some _ => Except.error (PyExn.attributeError attrNoGetMsg)

/-- One formatted line of the create handler:
`[severity] message( at location)`; severity defaults to `"error"`. -/
def createIssueLine (issue : Json) : Option String :=
  match issue with
  | Json.obj o =>
    match issueMsg issue with
    | none => none
    | some msg =>
      let sev := match o.get "severity" with
        | some s => pyToStr s
        | none => "error"
      let loc := (o.get "location").getD (Json.arr JsonList.nil)
      let locStr := if loc.pyTruthy then " at " ++ commaJoin loc else ""
      some ("[" ++ sev ++ "] " ++ msg ++ locStr)
  | _ => none

/-- All formatted create-handler lines, or `none` on a raising issue. -/
def createIssueLines : List Json → Option (List String)
  | [] => some []
  | h :: t =>
    match createIssueLine h, createIssueLines t with
    | some m, some ms => some (m :: ms)
    | _, _ => none

/-- The `httpx.HTTPStatusError` handler of `fhir_create_resource`
(fhir_server.py): OperationOutcome issues with severity and location. -/
def createErrorBranch (status : Nat) (text : String) : Except PyExn String :=
  match parseJson text with
  | none => Except.ok (httpErr status text)
  | some (Json.obj o) =>
    if o.get "resourceType" = some (Json.str "OperationOutcome") then
      match o.get "issue" with
      | none => Except.ok ("❌ Validation Error:\n" ++ "")
      | some (Json.arr xs) =>
        match createIssueLines xs.toList with
        | some msgs =>
          Except.ok ("❌ Validation Error:\n" ++
            String.intercalate "\n" (msgs.map (fun m => "- " ++ m)))
        | none => Except.error (PyExn.attributeError attrNoGetMsg)
      | some (Json.str _) => Except.error (PyExn.attributeError attrNoGetMsg)
      | some (Json.obj _) => Except.error (PyExn.attributeError attrNoGetMsg)
      | some _ => Except.error (PyExn.typeError "not iterable")
    else Except.ok (httpErr status text)
  | some _ => Except.error (PyExn.attributeError attrNoGetMsg)

/-- One line of the update handler: `diagnostics` or `"Unknown error"`
(no `details.text` fallback, no severity). -/
def updateIssueLine (issue : Json) : Option String :=
  match issue with
  | Json.obj o =>
    some (match o.get "diagnostics" with
          | some d => pyToStr d
          | none => "Unknown error")
  | _ => none

/-- All update-handler lines, or `none` on a raising issue. -/
def updateIssueLines : List Json → Option (List String)
  | [] => some []
  | h :: t =>
    match updateIssueLine h, updateIssueLines t with
    | some m, some ms => some (m :: ms)
    | _, _ => none

/-- The `httpx.HTTPStatusError` handler of `fhir_update_resource`
(fhir_server.py). -/
def updateErrorBranch (status : Nat) (text : String) : Except PyExn String :=
  match parseJson text with
  | none => Except.ok (httpErr status text)
  | some (Json.obj o) =>
    if o.get "resourceType" = some (Json.str "OperationOutcome") then
      match o.get "issue" with
      | none => Except.ok ("❌ Validation Error:\n" ++ "")
      | some (Json.arr xs) =>
        match updateIssueLines xs.toList with
        | some msgs =>
          Except.ok ("❌ Validation Error:\n" ++
            String.intercalate "\n" (msgs.map (fun m => "- " ++ m)))
        | none => Except.error (PyExn.attributeError attrNoGetMsg)
      | some (Json.str _) => Except.error (PyExn.attributeError attrNoGetMsg)
      | some (Json.obj _) => Except.error (PyExn.attributeError attrNoGetMsg)
      | some _ => Except.error (PyExn.typeError "not iterable")
    else Except.ok (httpErr status text)
  | some _ => Except.error (PyExn.attributeError attrNoGetMsg)

/-- Build an `IgContext` from a fetched guide resource. -/
def ctxOfGuide (o : JsonObj) : IgContext :=
  ⟨pyToStr ((o.get "id").getD (Json.str "")),
   pyToStr ((o.get "url").getD (Json.str "")),
   pyToStr ((o.get "name").getD ((o.get "title").getD (Json.str "")))⟩

/-- The success message of the context setter. -/
def ctxSetMsg (c : IgContext) : String :=
  "✅ ImplementationGuide context set:\n- ID: " ++ c.id ++
    "\n- Name: " ++ c.name ++ "\n- URL: " ++ c.url

/-- Model of `fhir_set_implementation_guide_context` (fhir_server.py): requires an
id or url, fetches the guide, and writes `_current_ig_context` only after
the fetch succeeded.  Returns the issued requests, the tool output and
the context state after the call. -/
def fhir_set_implementation_guide_context (ctx : IgContext)
    (implementation_guide_id implementation_guide_url : String)
    (net : Request → NetResult) :
    List Request × Except PyExn String × IgContext :=
  if isBlank implementation_guide_id && isBlank implementation_guide_url then
    ([], Except.ok ("❌ Error: Either implementation_guide_id or " ++
      "implementation_guide_url is required"), ctx)
  else if !isBlank implementation_guide_id then
    let req : Request :=
      ⟨"GET", "ImplementationGuide/" ++ implementation_guide_id,
        none, none, "fhir"⟩
    match make_fhir_request net req with
    | Except.ok (Json.obj o) =>
      let c := ctxOfGuide o
      ([req], Except.ok (ctxSetMsg c), c)
    | Except.ok _ =>
      ([req], Except.ok (genericErr (PyExn.attributeError attrNoGetMsg)), ctx)
    | Except.error e => ([req], Except.ok (plainHandler e), ctx)
  else
    let req : Request :=
      ⟨"GET", "ImplementationGuide",
        some [("url", implementation_guide_url)], none, "fhir"⟩
    match make_fhir_request net req with
    | Except.ok bundle =>
      match bundle.get? "entry" with
      | none =>
        ([req], Except.ok ("❌ Error: No ImplementationGuide found with " ++
          "URL: " ++ implementation_guide_url), ctx)
      | some (Json.arr JsonList.nil) =>
        ([req], Except.ok ("❌ Error: No ImplementationGuide found with " ++
          "URL: " ++ implementation_guide_url), ctx)
      | some (Json.arr (JsonList.cons e _)) =>
        match e with
        | Json.obj eo =>
          match (eo.get "resource").getD (Json.obj JsonObj.nil) with
          | Json.obj o =>
            let c := ctxOfGuide o
            ([req], Except.ok (ctxSetMsg c), c)
          | _ =>
            ([req],
              Except.ok (genericErr (PyExn.attributeError attrNoGetMsg)), ctx)
        | _ =>
          ([req],
            Except.ok (genericErr (PyExn.attributeError attrNoGetMsg)), ctx)
      | some v =>
        if v.pyTruthy then
          ([req],
            Except.ok (genericErr (PyExn.attributeError attrNoGetMsg)), ctx)
        else
          ([req], Except.ok ("❌ Error: No ImplementationGuide found with " ++
            "URL: " ++ implementation_guide_url), ctx)
    | Except.error e => ([req], Except.ok (plainHandler e), ctx)

/-- The no-context message of the context reader. -/
def noCtxMsg : String :=
  "ℹ️ No ImplementationGuide context is currently set. " ++
    "Use fhir_set_implementation_guide_context to set one."

/-- Model of `fhir_get_current_implementation_guide_context` (fhir_server.py):
reports the stored context, or the no-context message when its `id` is
falsy. -/
def fhir_get_current_implementation_guide_context (ctx : IgContext) :
    String :=
  if ctx.id = "" then noCtxMsg
  else
    "📋 Current ImplementationGuide Context:\n- ID: " ++ ctx.id ++
      "\n- Name: " ++ ctx.name ++ "\n- URL: " ++ ctx.url

/-- Render one PlanDefinition action line group of
`fhir_get_plan_definition`. -/
def renderAction (p : Nat × Json) : List String :=
  let idx := p.1
  let action := p.2
  let title := match action.get? "title" with
    | some t => pyToStr t
    | none =>
      match action.get? "description" with
      | some d => pyToStr d
      | none => "Action " ++ toString idx
  ["  " ++ toString idx ++ ". " ++ title] ++
  (if action.truthyField "input" then
    ["     Inputs: " ++ toString (jsonLen (action.getD "input" Json.null)) ++
      " data requirements"]
   else []) ++
  (if action.truthyField "output" then
    ["     Outputs: " ++ toString (jsonLen (action.getD "output" Json.null)) ++
      " data requirements"]
   else []) ++
  (if action.truthyField "definitionCanonical" then
    ["     Definition: " ++ pyToStr (action.getD "definitionCanonical" Json.null)]
   else [])

/-- The markdown rendering of `fhir_get_plan_definition`. -/
def renderPlanDefinition (pd : Json) : String :=
  let title := pyToStr (pd.getD "title" (pd.getD "name" (Json.str "Unknown")))
  let l0 := "📋 **PlanDefinition**: " ++ title
  let l1 := "- ID: " ++ pyToStr (pd.getD "id" (Json.str "N/A"))
  let l2 := "- URL: " ++ pyToStr (pd.getD "url" (Json.str "N/A"))
  let l3 := "- Version: " ++ pyToStr (pd.getD "version" (Json.str "N/A"))
  let l4 := "- Status: " ++ pyToStr (pd.getD "status" (Json.str "N/A"))
  let ds := if pd.truthyField "description" then
    ["\n**Description**: " ++ pyToStr (pd.getD "description" Json.null)]
    else []
  let actions := match pd.get? "action" with
    | some (Json.arr l) => l.toList
    | _ => []
  let acts := if actions.isEmpty then []
    else ["\n**Actions** (" ++ toString actions.length ++ "):"] ++
      (enumFrom 1 actions).flatMap renderAction
  String.intercalate "\n" ([l0, l1, l2, l3, l4] ++ ds ++ acts)

/-- Model of `fhir_get_plan_definition` (fhir_server.py). -/
def fhir_get_plan_definition (plan_definition_id response_format : String)
    (net : Request → NetResult) : List Request × Except PyExn String :=
  if isBlank plan_definition_id then
    ([], Except.ok "❌ Error: plan_definition_id is required")
  else
    let req : Request :=
      ⟨"GET", "PlanDefinition/" ++ plan_definition_id, none, none, "fhir"⟩
    ([req],
      match make_fhir_request net req with
      | Except.ok pd =>
        Except.ok (if response_format = "json" then Json.dumps pd
          else renderPlanDefinition pd)
      | Except.error e => Except.ok (plainHandler e))

/-- Model of `fhir_apply_plan_definition` (fhir_server.py): POST `$apply` with the
subject passed through verbatim as a query parameter. -/
def fhir_apply_plan_definition
    (plan_definition_id subject encounter practitioner organization : String)
    (net : Request → NetResult) : List Request × Except PyExn String :=
  if isBlank plan_definition_id then
    ([], Except.ok "❌ Error: plan_definition_id is required")
  else if isBlank subject then
    ([], Except.ok "❌ Error: subject is required (e.g., Patient/123)")
  else
    let ps := [("subject", subject)] ++
      (if isBlank encounter then [] else [("encounter", encounter)]) ++
      (if isBlank practitioner then [] else [("practitioner", practitioner)]) ++
      (if isBlank organization then [] else [("organization", organization)])
    let req : Request :=
      ⟨"POST", "PlanDefinition/" ++ plan_definition_id ++ "/$apply",
        some ps, none, "fhir"⟩
    ([req],
      match make_fhir_request net req with
      | Except.ok result => Except.ok (Json.dumps result)
      | Except.error (PyExn.httpStatusError s t) => applyErrorBranch s t
      | Except.error e => Except.ok (genericErr e))

/-- Model of `fhir_get_resource` (fhir_server.py). -/
def fhir_get_resource (resource_type resource_id response_format : String)
    (net : Request → NetResult) : List Request × Except PyExn String :=
  if isBlank resource_type then
    ([], Except.ok "❌ Error: resource_type is required")
  else if isBlank resource_id then
    ([], Except.ok "❌ Error: resource_id is required")
  else
    let req : Request :=
      ⟨"GET", resource_type ++ "/" ++ resource_id, none, none, "fhir"⟩
    ([req],
      match make_fhir_request net req with
      | Except.ok resource =>
        Except.ok (if response_format = "json" then Json.dumps resource
          else format_resource_summary resource "markdown")
      | Except.error e => Except.ok (plainHandler e))

/-- Model of `fhir_create_resource` (fhir_server.py): validates the JSON body and
its `resourceType`, attaches the ImplementationGuide context url as a
`profile` query parameter when one is set, and POSTs.  `.get` on a
non-dict body raises outside any `try` (an `Except.error` result). -/
def fhir_create_resource (ctx : IgContext) (resource_json : String)
    (net : Request → NetResult) : List Request × Except PyExn String :=
  if isBlank resource_json then
    ([], Except.ok "❌ Error: resource_json is required")
  else
    match parseJson resource_json with
    | none =>
      ([], Except.ok ("❌ Error: Invalid JSON - " ++ jsonDecodeMsg))
    | some (Json.obj o) =>
      match o.get "resourceType" with
      | none =>
        ([], Except.ok "❌ Error: resourceType is required in the FHIR resource")
      | some rt =>
        if rt.pyTruthy then
          let resource_type := pyToStr rt
          let ps := if ctx.url = "" then none
            else some [("profile", ctx.url)]
          let req : Request :=
            ⟨"POST", resource_type, ps, some (Json.obj o), "fhir"⟩
          ([req],
            match make_fhir_request net req with
            | Except.ok result =>
              Except.ok ("✅ Created " ++ resource_type ++ "/" ++
                pyToStr (result.getD "id" (Json.str "Unknown")) ++ "\n\n" ++
                Json.dumps result)
            | Except.error (PyExn.httpStatusError s t) => createErrorBranch s t
            | Except.error e => Except.ok (genericErr e))
        else
          ([],
            Except.ok "❌ Error: resourceType is required in the FHIR resource")
    | some _ => ([], Except.error (PyExn.attributeError attrNoGetMsg))

/-- Model of `fhir_update_resource` (fhir_server.py): after validation and JSON
parsing, forces `id` to the path id and — when it differs — forces
`resourceType` to the path type, then PUTs the body.  On a body that
parses to a non-dict JSON value, `resource["id"] = resource_id` raises a
`TypeError` outside any `try` (an `Except.error` result). -/
def fhir_update_resource (resource_type resource_id resource_json : String)
    (net : Request → NetResult) : List Request × Except PyExn String :=
  if isBlank resource_type then
    ([], Except.ok "❌ Error: resource_type is required")
  else if isBlank resource_id then
    ([], Except.ok "❌ Error: resource_id is required")
  else if isBlank resource_json then
    ([], Except.ok "❌ Error: resource_json is required")
  else
    match parseJson resource_json with
    | none => ([], Except.ok ("❌ Error: Invalid JSON - " ++ jsonDecodeMsg))
    | some (Json.obj o) =>
      let o1 := o.set "id" (Json.str resource_id)
      let o2 := if o1.get "resourceType" ≠ some (Json.str resource_type) then
        o1.set "resourceType" (Json.str resource_type) else o1
      let req : Request :=
        ⟨"PUT", resource_type ++ "/" ++ resource_id, none,
          some (Json.obj o2), "fhir"⟩
      ([req],
        match make_fhir_request net req with
        | Except.ok result =>
          Except.ok ("✅ Updated " ++ resource_type ++ "/" ++ resource_id ++
            "\n\n" ++ Json.dumps result)
        | Except.error (PyExn.httpStatusError s t) => updateErrorBranch s t
        | Except.error e => Except.ok (genericErr e))
    | some _ => ([], Except.error (PyExn.typeError listIndexMsg))

/-- Model of `fhir_delete_resource` (fhir_server.py). -/
def fhir_delete_resource (resource_type resource_id : String)
    (net : Request → NetResult) : List Request × Except PyExn String :=
  if isBlank resource_type then
    ([], Except.ok "❌ Error: resource_type is required")
  else if isBlank resource_id then
    ([], Except.ok "❌ Error: resource_id is required")
  else
    let req : Request :=
      ⟨"DELETE", resource_type ++ "/" ++ resource_id, none, none, "fhir"⟩
    ([req],
      match make_fhir_request net req with
      | Except.ok _ =>
        Except.ok ("✅ Deleted " ++ resource_type ++ "/" ++ resource_id)
      | Except.error e => Except.ok (plainHandler e))

/-- One `- name: value` lookup line, skipped unless both `name` and the
first present `value*` field are truthy; `none` models a raising issue. -/
def lookupLine (param : Json) : Option (List String) :=
  match param with
  | Json.obj o =>
    let name := pyToStr ((o.get "name").getD (Json.str ""))
    let v := (o.get "valueString").getD ((o.get "valueCode").getD
      ((o.get "valueBoolean").getD ((o.get "valueDateTime").getD
        (Json.str ""))))
    if name ≠ "" ∧ v.pyTruthy then some ["- " ++ name ++ ": " ++ pyToStr v]
    else some []
  | _ => none

/-- All lookup lines, or `none` on a raising parameter entry. -/
def lookupLinesOf : List Json → Option (List String)
  | [] => some []
  | h :: t =>
    match lookupLine h, lookupLinesOf t with
    | some m, some ms => some (m ++ ms)
    | _, _ => none

/-- Model of `fhir_lookup_code` (fhir_server.py). -/
def fhir_lookup_code (system code version : String)
    (net : Request → NetResult) : List Request × Except PyExn String :=
  if isBlank system then
    ([], Except.ok "❌ Error: system is required")
  else if isBlank code then
    ([], Except.ok "❌ Error: code is required")
  else
    let ps := [("system", system), ("code", code)] ++
      (if isBlank version then [] else [("version", version)])
    let req : Request := ⟨"GET", "CodeSystem/$lookup", some ps, none, "fhir"⟩
    ([req],
      match make_fhir_request net req with
      | Except.ok result =>
        let parameters := match result.get? "parameter" with
          | some (Json.arr l) => some l.toList
          | none => some []
          | _ => none
        let header := ["🔍 **Code Lookup**: " ++ code, "- System: " ++ system]
        match parameters with
        | none => Except.ok (genericErr (PyExn.typeError "not iterable"))
        | some ps2 =>
          match lookupLinesOf ps2 with
          | some ls => Except.ok (String.intercalate "\n" (header ++ ls))
          | none =>
            Except.ok (genericErr (PyExn.attributeError attrNoGetMsg))
      | Except.error e => Except.ok (plainHandler e))

end FhirServer

mutual

/-- Compact one-line `json.dumps(value)` (no `indent` argument), used by
fhir_mcp_server.py when inlining nested dict fields. -/
def printValC : Json → List Char
  | Json.null => 'n' :: 'u' :: 'l' :: 'l' :: []
  | Json.bool true => 't' :: 'r' :: 'u' :: 'e' :: []
  | Json.bool false => 'f' :: 'a' :: 'l' :: 's' :: 'e' :: []
  | Json.num n => intChars n
  | Json.str s => quoteStr s
  | Json.arr JsonList.nil => '[' :: ']' :: []
  | Json.arr (JsonList.cons h t) =>
    '[' :: printValC h ++ printItemsC t ++ [']']
  | Json.obj JsonObj.nil => lbr :: rbr :: []
  | Json.obj (JsonObj.cons k v t) =>
    lbr :: quoteStr k ++ ':' :: ' ' :: printValC v ++ printFieldsC t ++ [rbr]

/-- Remaining compact array items. -/
def printItemsC : JsonList → List Char
  | JsonList.nil => []
  | JsonList.cons h t => ',' :: ' ' :: printValC h ++ printItemsC t

/-- Remaining compact object fields. -/
def printFieldsC : JsonObj → List Char
  | JsonObj.nil => []
  | JsonObj.cons k v t =>
    ',' :: ' ' :: quoteStr k ++ ':' :: ' ' :: printValC v ++ printFieldsC t

end

/-- Model of `json.dumps(value)` without indentation. -/
def Json.dumpsC (v : Json) : String := ⟨printValC v⟩

/-- Fields of a `JsonObj` as a Lean association list (dict iteration
order). -/
def JsonObj.toList : JsonObj → List (String × Json)
  | JsonObj.nil => []
  | JsonObj.cons k v t => (k, v) :: t.toList

/-! ## `fhir_mcp_server.py`

The file is stored with mojibake emoji (for example `âŒ` where the other
servers have `❌`); the literals below reproduce the file's characters.
Pydantic validates the tool inputs with `str_strip_whitespace` and
`min_length`, so the embedded tool bodies receive the already-stripped
field values. -/

namespace McpServer

/-- The configured base URL (default of `FHIR_SERVER_URL`). -/
def FHIR_SERVER_URL : String := "http://localhost:8080/fhir"

/-- The mojibake error-prefix glyph of fhir_mcp_server.py. -/
def xm : String := "âŒ"

/-- The mojibake success-prefix glyph of fhir_mcp_server.py. -/
def ok : String := "âœ…"

/-- The mojibake clipboard glyph of fhir_mcp_server.py. -/
def clip : String := "ðŸ“‹"

/-- The synthetic body `_make_fhir_request` returns on HTTP 204. -/
def deletedBody : Json :=
  Json.obj (JsonObj.cons "status" (Json.str "success")
    (JsonObj.cons "message" (Json.str "Resource deleted successfully")
      JsonObj.nil))

/-- Model of `_make_fhir_request`: issue one request; non-2xx raises
`httpx.HTTPStatusError`. -/
def make_fhir_request (net : Request → NetResult) (req : Request) :
    Except PyExn Json :=
  match net req with
  | NetResult.ok j => Except.ok j
  | NetResult.noContent => Except.ok deletedBody
  | NetResult.httpError s t => Except.error (PyExn.httpStatusError s t)
  | NetResult.timeoutErr => Except.error PyExn.timeoutException
  | NetResult.connectErr => Except.error PyExn.connectError

/-- One `[severity] message` line of `_handle_fhir_error`: severity
defaults to `"error"`, the message prefers `diagnostics`, then
`details.text`, then `"Unknown error"`.  `none` models an exception
inside the loop (swallowed by the surrounding `except: pass`). -/
def formatIssue (issue : Json) : Option String :=
  match issue with
  | Json.obj o =>
    let dflt : Option String :=
      match o.get "details" with
      | none => some "Unknown error"
      | some (Json.obj d) =>
        some (match d.get "text" with
              | some t => pyToStr t
              | none => "Unknown error")
      | some _ => none
    match dflt with
    | none => none
    | some dv =>
      let sev := match o.get "severity" with
        | some s => pyToStr s
        | none => "error"
      let msg := match o.get "diagnostics" with
        | some d => pyToStr d
        | none => dv
      some ("[" ++ sev ++ "] " ++ msg)
  | _ => none

/-- All issue lines, or `none` as soon as one raises. -/
def formatIssues : List Json → Option (List String)
  | [] => some []
  | h :: t =>
    match formatIssue h, formatIssues t with
    | some m, some ms => some (m :: ms)
    | _, _ => none

/-- The OperationOutcome extraction attempted first by
`_handle_fhir_error`: `some lines` when the response text parses to an
OperationOutcome and every issue formats; `none` when anything goes wrong
(the `except Exception: pass` path) so that the status-code dispatch
takes over. -/
def ooLines (text : String) : Option (List String) :=
  match parseJson text with
  | some (Json.obj o) =>
    if o.get "resourceType" = some (Json.str "OperationOutcome") then
      match o.get "issue" with
      | none => some []
      | some (Json.arr xs) => formatIssues xs.toList
      | some _ => none
    else none
  | _ => none

/-- Python `text[:500]`. -/
def take500 (s : String) : String := ⟨s.data.take 500⟩

/-- Model of `_handle_fhir_error` (fhir_mcp_server.py): the error normalizer.  A
total function — the normalizer never raises. -/
def handle_fhir_error (e : PyExn) : String :=
  match e with
  | PyExn.httpStatusError status text =>
    match ooLines text with
    | some msgs =>
      xm ++ " FHIR Error (" ++ toString status ++ "):\n" ++
        String.intercalate "\n" msgs
    | none =>
      if status = 404 then
        xm ++ " Error: Resource not found. Please verify the resource type and ID."
      else if status = 400 then
        xm ++ " Error: Bad request. Check your input parameters.\nDetails: " ++
          take500 text
      else if status = 422 then
        xm ++ " Error: Unprocessable entity. The resource failed validation.\nDetails: " ++
          take500 text
      else if status = 409 then
        xm ++ " Error: Conflict. The resource may already exist or there" ++
          ⟨[sq]⟩ ++ "s a version conflict."
      else
        xm ++ " Error: FHIR server returned status " ++ toString status ++
          "\nDetails: " ++ take500 text
  | PyExn.timeoutException =>
    xm ++ " Error: Request timed out. The FHIR server may be slow or unavailable."
  | PyExn.connectError =>
    xm ++ " Error: Could not connect to FHIR server at " ++ FHIR_SERVER_URL ++
      ". Please verify the server is running."
  | e =>
    xm ++ " Error: Unexpected error - " ++ pyExnName e ++ ": " ++ pyExnStr e

/-- Model of `_format_bundle_entry` (fhir_mcp_server.py). -/
def format_bundle_entry (entry : Json) : String :=
  let resource := entry.getD "resource" (Json.obj JsonObj.nil)
  let rt := pyToStr (resource.getD "resourceType" (Json.str "Unknown"))
  let rid := pyToStr (resource.getD "id" (Json.str "N/A"))
  let l0 := "### " ++ rt ++ "/" ++ rid
  let l1 := if resource.truthyField "status" then
    ["**Status**: " ++ pyToStr (resource.getD "status" Json.null)] else []
  let l2 := if resource.truthyField "intent" then
    ["**Intent**: " ++ pyToStr (resource.getD "intent" Json.null)] else []
  let subject := resource.getD "subject" (Json.obj JsonObj.nil)
  let l3 := if subject.truthyField "reference" then
    ["**Subject**: " ++ pyToStr (subject.getD "reference" Json.null)] else []
  String.intercalate "\n" ([l0] ++ l1 ++ l2 ++ l3)

/-- The markdown rendering of an `$apply` result (fhir_mcp_server.py):
a Bundle, CarePlan or fallback branch, each ending in the full JSON. -/
def renderApplyResult (plan_definition_id : String) (result : Json) :
    String :=
  let resource_type := result.getD "resourceType" (Json.str "Unknown")
  let l0 := "# CarePlan Generated from PlanDefinition/" ++ plan_definition_id
  let l2 := "**Resource Type**: " ++ pyToStr resource_type
  let tail :=
    if resource_type = Json.str "Bundle" then
      let entries := match result.get? "entry" with
        | some (Json.arr l) => l.toList
        | _ => []
      ["**Total Resources**: " ++ toString entries.length,
        "\n## Resources in Bundle\n"] ++
      (entries.flatMap (fun e => [format_bundle_entry e, ""])) ++
      ["\n## Full Bundle (JSON)\n", "```json", Json.dumps result, "```"]
    else if resource_type = Json.str "CarePlan" then
      let subject := result.getD "subject" (Json.obj JsonObj.nil)
      let activities := match result.get? "activity" with
        | some (Json.arr l) => l.toList
        | _ => []
      ["**ID**: " ++ pyToStr (result.getD "id" (Json.str "N/A")),
       "**Status**: " ++ pyToStr (result.getD "status" (Json.str "N/A")),
       "**Intent**: " ++ pyToStr (result.getD "intent" (Json.str "N/A")),
       "**Subject**: " ++ pyToStr (subject.getD "reference" (Json.str "N/A"))] ++
      (if activities.isEmpty then [] else
        ["\n## Activities\n"] ++
        activities.flatMap (fun activity =>
          let ref := activity.getD "reference" (Json.obj JsonObj.nil)
          let detail := activity.getD "detail" (Json.obj JsonObj.nil)
          (if ref.truthyField "reference" then
            ["- Reference: " ++ pyToStr (ref.getD "reference" Json.null)]
           else []) ++
          (if detail.pyTruthy then
            ["  - Status: " ++ pyToStr (detail.getD "status" (Json.str "N/A"))] ++
            (if detail.truthyField "description" then
              ["  - Description: " ++ pyToStr (detail.getD "description" Json.null)]
             else [])
           else []))) ++
      ["\n## Full CarePlan (JSON)\n", "```json", Json.dumps result, "```"]
    else
      ["\n## Full Response (JSON)\n", "```json", Json.dumps result, "```"]
  String.intercalate "\n" ([l0, "", l2] ++ tail)

/-- Model of `fhir_apply_plan_definition` (fhir_mcp_server.py): GET `$apply` with
`subject` passed through exactly as received (no `Patient/` prefix
normalization); blank optional references are omitted. -/
def fhir_apply_plan_definition
    (plan_definition_id subject encounter practitioner organization : String)
    (net : Request → NetResult) : List Request × String :=
  let ps := [("subject", subject)] ++
    (if isBlank encounter then [] else [("encounter", pyStrip encounter)]) ++
    (if isBlank practitioner then []
     else [("practitioner", pyStrip practitioner)]) ++
    (if isBlank organization then []
     else [("organization", pyStrip organization)])
  let req : Request :=
    ⟨"GET", "PlanDefinition/" ++ plan_definition_id ++ "/$apply",
      some ps, none, "fhir"⟩
  ([req],
    match make_fhir_request net req with
    | Except.ok result => renderApplyResult plan_definition_id result
    | Except.error e => handle_fhir_error e)

/-- Model of `fhir_create_resource` (fhir_mcp_server.py): rejects a missing or
falsy `resourceType`, POSTs the body — without consulting the
ImplementationGuide context and so never attaching a `profile` query
parameter — and renders the created resource. -/
def fhir_create_resource (st : Json) (resource_json : String)
    (net : Request → NetResult) : List Request × String × Json :=
  match parseJson resource_json with
  | none => ([], xm ++ " Error: Invalid JSON - " ++ jsonDecodeMsg, st)
  | some (Json.obj o) =>
    let rtOpt := o.get "resourceType"
    if (match rtOpt with | some v => v.pyTruthy | none => false) then
      let resource_type := pyToStr (rtOpt.getD Json.null)
      let req : Request :=
        ⟨"POST", resource_type, none, some (Json.obj o), "fhir"⟩
      ([req],
        (match make_fhir_request net req with
         | Except.ok result =>
           ok ++ " Successfully created " ++ resource_type ++ "/" ++
             pyToStr (result.getD "id" (Json.str "N/A")) ++
             "\n\n```json\n" ++ Json.dumps result ++ "\n```"
         | Except.error e => handle_fhir_error e), st)
    else
      ([], xm ++ " Error: The resource JSON must include a " ++
        sqWrap "resourceType" ++ " field.", st)
  | some _ =>
    ([], handle_fhir_error (PyExn.attributeError attrNoGetMsg), st)

/-- The mismatch message of `fhir_update_resource` (fhir_mcp_server.py). -/
def updateMismatchMsg (bodyType : String) (resource_type : String) : String :=
  xm ++ " Error: Resource type in JSON (" ++ bodyType ++ ") doesn" ++
    ⟨[sq]⟩ ++ "t match specified type (" ++ resource_type ++ ")"

/-- Model of `fhir_update_resource` (fhir_mcp_server.py): a truthy `resourceType`
in the body that differs from the path parameter is rejected with an
error and no request; otherwise `id` and `resourceType` are forced to the
path parameters and the body is PUT. -/
def fhir_update_resource (resource_type resource_id resource_json : String)
    (net : Request → NetResult) : List Request × String :=
  match parseJson resource_json with
  | none => ([], xm ++ " Error: Invalid JSON - " ++ jsonDecodeMsg)
  | some (Json.obj o) =>
    let bodyTy := o.get "resourceType"
    let truthy := match bodyTy with
      | some v => v.pyTruthy
      | none => false
    if truthy && (bodyTy != some (Json.str resource_type)) then
      ([], updateMismatchMsg (pyToStr (bodyTy.getD Json.null)) resource_type)
    else
      let o2 := (o.set "id" (Json.str resource_id)).set "resourceType"
        (Json.str resource_type)
      let req : Request :=
        ⟨"PUT", resource_type ++ "/" ++ resource_id, none,
          some (Json.obj o2), "fhir"⟩
      ([req],
        match make_fhir_request net req with
        | Except.ok result =>
          ok ++ " Successfully updated " ++ resource_type ++ "/" ++
            resource_id ++ "\n\n```json\n" ++ Json.dumps result ++ "\n```"
        | Except.error e => handle_fhir_error e)
  | some _ => ([], handle_fhir_error (PyExn.attributeError attrNoGetMsg))

/-- The markdown rendering of `fhir_get_resource` (fhir_mcp_server.py). -/
def renderGetResource (resource_type resource_id : String) (result : Json) :
    String :=
  let fields := match result with
    | Json.obj o => o.toList
    | _ => []
  let body := fields.filterMap (fun p =>
    if p.1 = "resourceType" ∨ p.1 = "id" ∨ p.1 = "meta" then none
    else some (match p.2 with
      | Json.obj d => "**" ++ p.1 ++ "**: " ++ Json.dumpsC (Json.obj d)
      | Json.arr l => "**" ++ p.1 ++ "**: " ++ toString l.length ++ " items"
      | v => "**" ++ p.1 ++ "**: " ++ pyToStr v))
  String.intercalate "\n"
    (["# " ++ resource_type ++ "/" ++ resource_id, ""] ++ body ++
      ["\n## Full Resource (JSON)\n", "```json", Json.dumps result, "```"])

/-- Model of `fhir_get_resource` (fhir_mcp_server.py): on an HTTP 404 whose body
is not an OperationOutcome the output is `_handle_fhir_error`'s fixed
not-found message, which names neither the requested type nor the id. -/
def fhir_get_resource (resource_type resource_id response_format : String)
    (net : Request → NetResult) : List Request × String :=
  let req : Request :=
    ⟨"GET", resource_type ++ "/" ++ resource_id, none, none, "fhir"⟩
  ([req],
    match make_fhir_request net req with
    | Except.ok result =>
      if response_format = "json" then Json.dumps result
      else renderGetResource resource_type resource_id result
    | Except.error e => handle_fhir_error e)

/-- Model of `fhir_delete_resource` (fhir_mcp_server.py). -/
def fhir_delete_resource (resource_type resource_id : String)
    (net : Request → NetResult) : List Request × String :=
  let req : Request :=
    ⟨"DELETE", resource_type ++ "/" ++ resource_id, none, none, "fhir"⟩
  ([req],
    match make_fhir_request net req with
    | Except.ok _ =>
      ok ++ " Successfully deleted " ++ resource_type ++ "/" ++ resource_id
    | Except.error e => handle_fhir_error e)

/-- The success message of the context setter (fhir_mcp_server.py). -/
def ctxSetMsg (o : JsonObj) : String :=
  ok ++ " ImplementationGuide context set to:\n- **Name**: " ++
    pyToStr ((o.get "name").getD ((o.get "title").getD (Json.str "Untitled"))) ++
    "\n- **ID**: " ++ pyToStr ((o.get "id").getD (Json.str "N/A")) ++
    "\n- **URL**: " ++ pyToStr ((o.get "url").getD (Json.str "N/A"))

/-- Model of `fhir_set_implementation_guide_context` (fhir_mcp_server.py): with an
id or url the guide is fetched and `_implementation_guide_context` is
assigned the fetched resource; with neither, the context is reset to the
empty dict (`clear`).  State is threaded explicitly. -/
def fhir_set_implementation_guide_context (st : Json)
    (implementation_guide_id implementation_guide_url : String)
    (net : Request → NetResult) : List Request × String × Json :=
  if !isBlank implementation_guide_id then
    let req : Request :=
      ⟨"GET", "ImplementationGuide/" ++ pyStrip implementation_guide_id,
        none, none, "fhir"⟩
    match make_fhir_request net req with
    | Except.ok result =>
      (match result with
       | Json.obj o => ([req], ctxSetMsg o, result)
       | _ =>
         ([req], handle_fhir_error (PyExn.attributeError attrNoGetMsg),
           result))
    | Except.error e => ([req], handle_fhir_error e, st)
  else if !isBlank implementation_guide_url then
    let req : Request :=
      ⟨"GET", "ImplementationGuide",
        some [("url", pyStrip implementation_guide_url)], none, "fhir"⟩
    match make_fhir_request net req with
    | Except.ok search_result =>
      (match search_result.get? "entry" with
       | none =>
         ([req], xm ++ " Error: No ImplementationGuide found with URL: " ++
           implementation_guide_url, st)
       | some (Json.arr JsonList.nil) =>
         ([req], xm ++ " Error: No ImplementationGuide found with URL: " ++
           implementation_guide_url, st)
       | some (Json.arr (JsonList.cons e _)) =>
         (match e with
          | Json.obj eo =>
            let result := (eo.get "resource").getD (Json.obj JsonObj.nil)
            (match result with
             | Json.obj o => ([req], ctxSetMsg o, result)
             | _ =>
               ([req],
                 handle_fhir_error (PyExn.attributeError attrNoGetMsg),
                 result))
          | _ =>
            ([req], handle_fhir_error (PyExn.attributeError attrNoGetMsg),
              st))
       | some v =>
         if v.pyTruthy then
           ([req], handle_fhir_error (PyExn.attributeError attrNoGetMsg), st)
         else
           ([req], xm ++ " Error: No ImplementationGuide found with URL: " ++
             implementation_guide_url, st))
    | Except.error e => ([req], handle_fhir_error e, st)
  else
    ([], ok ++ " ImplementationGuide context cleared.", Json.obj JsonObj.nil)

/-- The no-context message of the context reader (fhir_mcp_server.py). -/
def noCtxMsg : String :=
  clip ++ " No ImplementationGuide context is currently set. " ++
    "Use fhir_set_implementation_guide_context to set one."

/-- Model of `fhir_get_current_implementation_guide_context` (fhir_mcp_server.py):
reports the stored context, or the no-context message when the stored
dict is empty (falsy). -/
def fhir_get_current_implementation_guide_context (st : Json) : String :=
  if st.pyTruthy = false then noCtxMsg
  else
    String.intercalate "\n"
      ["# Current ImplementationGuide Context", "",
       "**Name**: " ++
         pyToStr (st.getD "name" (st.getD "title" (Json.str "Untitled"))),
       "**ID**: " ++ pyToStr (st.getD "id" (Json.str "N/A")),
       "**URL**: " ++ pyToStr (st.getD "url" (Json.str "N/A")),
       "**Version**: " ++ pyToStr (st.getD "version" (Json.str "N/A")),
       "**FHIR Version**: " ++
         pyToStr (st.getD "fhirVersion"
           (Json.arr (JsonList.cons (Json.str "N/A") JsonList.nil)))]

end McpServer

/-! ## `fhir_immunization_server.py` -/

namespace Immunization

/-- First element of a JSON array, or `{}` (the `[{}])[0]` access
pattern). -/
def firstOr (j : Json) : Json :=
  match j with
  | Json.arr (JsonList.cons h _) => h
  | _ => Json.obj JsonObj.nil

/-- Model of `client.get`/`client.post` against the configured base URL followed
by `raise_for_status()` and `response.json()`; a 204 answer has an empty
body, so `response.json()` raises a `JSONDecodeError`. -/
def fhirRequest (net : Request → NetResult) (req : Request) :
    Except PyExn Json :=
  match net req with
  | NetResult.ok j => Except.ok j
  | NetResult.noContent => Except.error (PyExn.jsonDecodeError jsonDecodeMsg)
  | NetResult.httpError s t => Except.error (PyExn.httpStatusError s t)
  | NetResult.timeoutErr => Except.error PyExn.timeoutException
  | NetResult.connectErr => Except.error PyExn.connectError

/-- Model of `format_request_group_summary` (fhir_immunization_server.py). -/
def format_request_group_summary (rg : Json) : String :=
  let actions := match rg.get? "action" with
    | some (Json.arr l) => l.toList
    | _ => []
  if actions.isEmpty then ""
  else
    "   **Actions (" ++ toString actions.length ++ "):**\n" ++
    String.join (actions.map (fun action =>
      let title := match action.get? "title" with
        | some t => pyToStr t
        | none =>
          match action.get? "description" with
          | some d => pyToStr d
          | none => "Untitled"
      let resource := action.getD "resource" (Json.obj JsonObj.nil)
      "      • " ++ title ++ "\n" ++
      (if resource.pyTruthy then
        "        Resource: " ++
          pyToStr (resource.getD "reference" (Json.str "N/A")) ++ "\n"
       else "")))

/-- Model of `format_careplan_result` (fhir_immunization_server.py). -/
def format_careplan_result (careplan : Json) : String :=
  let subject := careplan.getD "subject" (Json.obj JsonObj.nil)
  let period := careplan.getD "period" (Json.obj JsonObj.nil)
  let activities := match careplan.get? "activity" with
    | some (Json.arr l) => l.toList
    | _ => []
  let contained := match careplan.get? "contained" with
    | some (Json.arr l) => l.toList
    | _ => []
  "✅ **CarePlan Generated Successfully**\n\n" ++
  "**ID:** " ++ pyToStr (careplan.getD "id" (Json.str "N/A")) ++ "\n" ++
  "**Status:** " ++ pyToStr (careplan.getD "status" (Json.str "unknown")) ++
    "\n" ++
  "**Intent:** " ++ pyToStr (careplan.getD "intent" (Json.str "unknown")) ++
    "\n" ++
  "**Subject:** " ++ pyToStr (subject.getD "reference" (Json.str "N/A")) ++
    "\n" ++
  (if period.pyTruthy then
    "**Period:** " ++ pyToStr (period.getD "start" (Json.str "N/A")) ++
      " to " ++ pyToStr (period.getD "end" (Json.str "N/A")) ++ "\n"
   else "") ++
  (if activities.isEmpty then ""
   else
    "\n**📋 Activities (" ++ toString activities.length ++ "):**\n" ++
    String.join ((enumFrom 1 activities).map (fun p =>
      let activity := p.2
      let detail := activity.getD "detail" (Json.obj JsonObj.nil)
      let reference := activity.getD "reference" (Json.obj JsonObj.nil)
      (if detail.pyTruthy then
        let kind := pyToStr (detail.getD "kind" (Json.str "Unknown"))
        let codeObj := detail.getD "code" (Json.obj JsonObj.nil)
        let coding0 := firstOr (codeObj.getD "coding"
          (Json.arr (JsonList.cons (Json.obj JsonObj.nil) JsonList.nil)))
        let code := match codeObj.get? "text" with
          | some t => pyToStr t
          | none => pyToStr (coding0.getD "display" (Json.str "Unknown"))
        let status := pyToStr (detail.getD "status" (Json.str "unknown"))
        let scheduled := detail.getD "scheduledTiming"
          (detail.getD "scheduledPeriod"
            (detail.getD "scheduledString" (Json.obj JsonObj.nil)))
        let product := detail.getD "productCodeableConcept"
          (Json.obj JsonObj.nil)
        "\n  **" ++ toString p.1 ++ ". " ++ code ++ "**\n" ++
        "     Kind: " ++ kind ++ "\n" ++
        "     Status: " ++ status ++ "\n" ++
        (if scheduled.pyTruthy then
          "     Scheduled: " ++ Json.dumpsC scheduled ++ "\n" else "") ++
        (if product.pyTruthy then
          let product_text := match product.get? "text" with
            | some t => pyToStr t
            | none =>
              pyToStr ((firstOr (product.getD "coding"
                (Json.arr (JsonList.cons (Json.obj JsonObj.nil)
                  JsonList.nil)))).getD "display" (Json.str "N/A"))
          "     Product: " ++ product_text ++ "\n"
         else "")
       else "") ++
      (if reference.pyTruthy then
        "     Reference: " ++
          pyToStr (reference.getD "reference" (Json.str "N/A")) ++ "\n"
       else "")))) ++
  (if contained.isEmpty then ""
   else
    "\n**📦 Contained Resources (" ++ toString contained.length ++ "):**\n" ++
    String.join (contained.map (fun res =>
      "  • " ++ pyToStr (res.getD "resourceType" (Json.str "Unknown")) ++
        " (ID: " ++ pyToStr (res.getD "id" (Json.str "N/A")) ++ ")\n"))) ++
  "\n**📄 Full CarePlan JSON:**\n```json\n" ++ Json.dumps careplan ++ "\n```"

/-- Model of `format_bundle_apply_result` (fhir_immunization_server.py). -/
def format_bundle_apply_result (bundle : Json) : String :=
  let entries := match bundle.get? "entry" with
    | some (Json.arr l) => l.toList
    | _ => []
  "✅ **Apply Operation Result (Bundle)**\n\n" ++
  "**Type:** " ++ pyToStr (bundle.getD "type" (Json.str "unknown")) ++ "\n" ++
  "**Entries:** " ++ toString entries.length ++ "\n\n" ++
  String.join ((enumFrom 1 entries).map (fun p =>
    let resource := p.2.getD "resource" (Json.obj JsonObj.nil)
    let rt := resource.getD "resourceType" (Json.str "Unknown")
    "**" ++ toString p.1 ++ ". " ++ pyToStr rt ++ "** (ID: " ++
      pyToStr (resource.getD "id" (Json.str "N/A")) ++ ")\n" ++
    (if rt = Json.str "RequestGroup" then
      format_request_group_summary resource
     else if rt = Json.str "CarePlan" then
      "   Status: " ++ pyToStr (resource.getD "status" (Json.str "unknown")) ++
        "\n"
     else if rt = Json.str "MedicationRequest" ∨
        rt = Json.str "ImmunizationRecommendation" ∨
        rt = Json.str "ServiceRequest" then
      let code := resource.getD "medicationCodeableConcept"
        (resource.getD "code" (Json.obj JsonObj.nil))
      let code_text := match code.get? "text" with
        | some t => pyToStr t
        | none =>
          pyToStr ((firstOr (code.getD "coding"
            (Json.arr (JsonList.cons (Json.obj JsonObj.nil)
              JsonList.nil)))).getD "display" (Json.str "N/A"))
      "   Code: " ++ code_text ++ "\n"
     else "") ++ "\n"))

/-- Model of `format_request_group_result` (fhir_immunization_server.py). -/
def format_request_group_result (rg : Json) : String :=
  "✅ **RequestGroup Generated**\n\n" ++
  "**ID:** " ++ pyToStr (rg.getD "id" (Json.str "N/A")) ++ "\n" ++
  "**Status:** " ++ pyToStr (rg.getD "status" (Json.str "unknown")) ++ "\n" ++
  "**Intent:** " ++ pyToStr (rg.getD "intent" (Json.str "unknown")) ++ "\n" ++
  format_request_group_summary rg

/-- Model of `apply_plan_definition` (fhir_immunization_server.py): validates the
two required identifiers, GETs `$apply` with the subject sent exactly as
supplied after stripping — no `Patient/` prefix is added — and renders
the result by resource type. -/
def apply_plan_definition
    (plan_definition_id subject encounter practitioner : String)
    (net : Request → NetResult) : List Request × String :=
  if isBlank plan_definition_id then
    ([], "❌ Error: plan_definition_id is required")
  else if isBlank subject then
    ([], "❌ Error: subject (Patient reference like " ++
      sqWrap "Patient/123" ++ ") is required")
  else
    let ps := [("subject", pyStrip subject)] ++
      (if isBlank encounter then [] else [("encounter", pyStrip encounter)]) ++
      (if isBlank practitioner then []
       else [("practitioner", pyStrip practitioner)])
    let req : Request :=
      ⟨"GET", "/PlanDefinition/" ++ pyStrip plan_definition_id ++ "/$apply",
        some ps, none, "fhir"⟩
    ([req],
      match fhirRequest net req with
      | Except.ok result_data =>
        (match result_data with
         | Json.obj o =>
           let rt := (o.get "resourceType").getD (Json.str "Unknown")
           if rt = Json.str "CarePlan" then
             format_careplan_result result_data
           else if rt = Json.str "Bundle" then
             format_bundle_apply_result result_data
           else if rt = Json.str "RequestGroup" then
             format_request_group_result result_data
           else
             "✅ Apply operation returned:\n\n```json\n" ++
               Json.dumps result_data ++ "\n```"
         | _ => "❌ Error: " ++ attrNoGetMsg)
      | Except.error (PyExn.httpStatusError s t) =>
        "❌ FHIR Server Error: " ++ toString s ++ "\n\nDetails: " ++ t
      | Except.error e => "❌ Error: " ++ pyExnStr e)

/-- Model of `get_fhir_resource` (fhir_immunization_server.py): its 404 handler
names both the requested resource type and id. -/
def get_fhir_resource (resource_type resource_id : String)
    (net : Request → NetResult) : List Request × String :=
  if isBlank resource_type then
    ([], "❌ Error: resource_type is required")
  else if isBlank resource_id then
    ([], "❌ Error: resource_id is required")
  else
    let req : Request :=
      ⟨"GET", "/" ++ pyStrip resource_type ++ "/" ++ pyStrip resource_id,
        none, none, "fhir"⟩
    ([req],
      match fhirRequest net req with
      | Except.ok resource =>
        (match resource with
         | Json.obj o =>
           "📄 **" ++ pyToStr ((o.get "resourceType").getD
             (Json.str "Unknown")) ++
             " Details**\n\n```json\n" ++ Json.dumps resource ++ "\n```"
         | _ => "❌ Error: " ++ attrNoGetMsg)
      | Except.error (PyExn.httpStatusError s _) =>
        if s = 404 then
          "❌ Resource not found: " ++ resource_type ++ "/" ++ resource_id
        else "❌ FHIR Server Error: " ++ toString s
      | Except.error e => "❌ Error: " ++ pyExnStr e)

end Immunization

/-! ## Helper lemmas for the claim theorems -/

/-- Boolean prefix test on character lists. -/
def isPrefixB : List Char → List Char → Bool
  | [], _ => true
  | _ :: _, [] => false
  | a :: as, b :: bs => a == b && isPrefixB as bs

/-- Boolean substring test on character lists: `isInfixB p l` holds when
`p` occurs contiguously inside `l`. -/
def isInfixB (p : List Char) : List Char → Bool
  | [] => isPrefixB p []
  | b :: bs => isPrefixB p (b :: bs) || isInfixB p bs

/-- Model of `mentions big small`: the text of `small` occurs inside `big`. -/
def mentions (big small : String) : Bool := isInfixB small.data big.data

theorem isPrefixB_self_append (p r : List Char) :
    isPrefixB p (p ++ r) = true := by
  induction p with
  | nil => rfl
  | cons a as ih => simp [isPrefixB, ih]

theorem isInfixB_of_middle (a p r : List Char) :
    isInfixB p (a ++ (p ++ r)) = true := by
  induction a with
  | nil =>
    rw [List.nil_append]
    cases hp : p ++ r with
    | nil =>
      have hpn : p = [] := by
        cases p with
        | nil => rfl
        | cons x xs => simp at hp
      subst hpn
      rfl
    | cons b bs =>
      have hpre : isPrefixB p (b :: bs) = true := by
        rw [← hp]
        exact isPrefixB_self_append p r
      simp [isInfixB, hpre]
  | cons b bs ih =>
    simp only [List.cons_append, isInfixB, List.append_eq, ih, Bool.or_true]

theorem string_data_append (s t : String) : (s ++ t).data = s.data ++ t.data := by
  cases s
  cases t
  rfl

theorem mentions_middle (pre mid post : String) :
    mentions (pre ++ mid ++ post) mid = true := by
  have h : (pre ++ mid ++ post).data = pre.data ++ (mid.data ++ post.data) := by
    rw [string_data_append, string_data_append, List.append_assoc]
  rw [mentions, h]
  exact isInfixB_of_middle pre.data mid.data post.data

theorem jsonObjGet_set_self : ∀ (o : JsonObj) (k : String) (v : Json),
    (o.set k v).get k = some v
  | JsonObj.nil, k, v => by simp [JsonObj.set, JsonObj.get]
  | JsonObj.cons k2 v2 tl, k, v => by
    by_cases h : k2 = k
    · simp [JsonObj.set, JsonObj.get, h]
    · simp [JsonObj.set, JsonObj.get, h, jsonObjGet_set_self tl k v]

theorem jsonObjGet_set_other : ∀ (o : JsonObj) (k k' : String) (v : Json),
    k' ≠ k → (o.set k v).get k' = o.get k'
  | JsonObj.nil, k, k', v, h => by
    have h2 : ¬(k = k') := fun hh => h hh.symm
    simp [JsonObj.set, JsonObj.get, h2]
  | JsonObj.cons k2 v2 tl, k, k', v, h => by
    by_cases h2 : k2 = k
    · subst h2
      have h4 : ¬(k2 = k') := fun hh => h hh.symm
      simp [JsonObj.set, JsonObj.get, h4]
    · simp only [JsonObj.set, if_neg h2, JsonObj.get]
      by_cases h3 : k2 = k'
      · simp [h3]
      · simp [h3, jsonObjGet_set_other tl k k' v h]

/-- Lean lists into the JSON array element type. -/
def JsonList.ofList : List Json → JsonList
  | [] => JsonList.nil
  | h :: t => JsonList.cons h (JsonList.ofList t)

theorem jsonList_toList_ofList (l : List Json) :
    (JsonList.ofList l).toList = l := by
  induction l with
  | nil => rfl
  | cons h t ih => simp [JsonList.ofList, JsonList.toList, ih]

theorem mcp_formatIssues_length (l : List Json) (ms : List String)
    (h : McpServer.formatIssues l = some ms) : ms.length = l.length := by
  induction l generalizing ms with
  | nil =>
    simp [McpServer.formatIssues] at h
    simp [← h]
  | cons x xs ih =>
    simp only [McpServer.formatIssues] at h
    cases hx : McpServer.formatIssue x with
    | none => rw [hx] at h; exact absurd h (by simp)
    | some m =>
      rw [hx] at h
      cases hxs : McpServer.formatIssues xs with
      | none => rw [hxs] at h; exact absurd h (by simp)
      | some ms2 =>
        rw [hxs] at h
        simp at h
        subst h
        simp [ih ms2 hxs]

/-- A transport outcome on which `make_fhir_request` raises. -/
def isFailNet : NetResult → Bool
  | NetResult.httpError _ _ => true
  | NetResult.timeoutErr => true
  | NetResult.connectErr => true
  | _ => false

/-- A search bundle in which the `entry` list is missing or empty. -/
def noEntries (bundle : Json) : Prop :=
  bundle.get? "entry" = none ∨ bundle.get? "entry" = some (Json.arr JsonList.nil)

theorem string_append_assoc (a b c : String) :
    (a ++ b) ++ c = a ++ (b ++ c) := by
  cases a with
  | mk da =>
    cases b with
    | mk db =>
      cases c with
      | mk dc =>
        show String.mk ((da ++ db) ++ dc) = String.mk (da ++ (db ++ dc))
        rw [List.append_assoc]

theorem string_append_empty (a : String) : a ++ "" = a := by
  cases a with
  | mk da =>
    show String.mk (da ++ []) = String.mk da
    rw [List.append_nil]

/-! ## Claim theorems -/

/-- C9: For every JSON value, formatting it in raw_json mode (the
`"json"` branch of `format_resource_summary`, i.e.
`json.dumps(resource, indent=2)`: 2-space indentation, key order as
received) and re-parsing the output as JSON yields the original value —
the pass-through is lossless. -/
theorem c9_raw_json_roundtrip (v : Json) :
    parseJson (FhirServer.format_resource_summary v "json") = some v := by
  have h : FhirServer.format_resource_summary v "json" = Json.dumps v := by
    simp [FhirServer.format_resource_summary]
  rw [h]
  exact parse_dumps v

/-- C4 (code bug): fhir_server.py's `fhir_update_resource` parses the
body inside a `try` that only catches `JSONDecodeError`, then runs
`resource["id"] = resource_id` outside any `try`; a body that is valid
JSON but not an object (here `"[1, 2]"`) therefore raises a `TypeError`
past the tool façade instead of returning an error string.  The
fhir_mcp_server.py copy of the same operation wraps the whole body in
`except Exception` and turns the same input into a handled error string
with no request issued. -/
theorem c4_update_nonobject_body_raises :
    FhirServer.fhir_update_resource "Patient" "42" "[1, 2]"
      (fun _ => NetResult.ok Json.null) =
      ([], Except.error (PyExn.typeError listIndexMsg)) ∧
    McpServer.fhir_update_resource "Patient" "42" "[1, 2]"
      (fun _ => NetResult.ok Json.null) =
      ([], McpServer.handle_fhir_error (PyExn.attributeError attrNoGetMsg)) := by
  constructor
  · decide
  · decide

/-- C8 counterexample: in fhir_server.py, after the ImplementationGuide
context has been set, invoking the setter with neither an id nor a url
does not clear it: the call returns an error and leaves the stored
context unchanged, so a subsequent read still reports the old context
rather than "no context set". -/
theorem c8_fhir_server_setter_does_not_clear :
    (FhirServer.fhir_set_implementation_guide_context
      FhirServer.initialIgContext "ig1" ""
      (fun _ => NetResult.ok (Json.obj (JsonObj.cons "id" (Json.str "ig1")
        (JsonObj.cons "url" (Json.str "http://example.org/ig")
          (JsonObj.cons "name" (Json.str "Example IG") JsonObj.nil)))))).2.2 =
      (⟨"ig1", "http://example.org/ig", "Example IG"⟩ :
        FhirServer.IgContext) ∧
    FhirServer.fhir_set_implementation_guide_context
      (⟨"ig1", "http://example.org/ig", "Example IG"⟩ :
        FhirServer.IgContext) "" ""
      (fun _ => NetResult.ok Json.null) =
      ([], Except.ok ("❌ Error: Either implementation_guide_id or " ++
        "implementation_guide_url is required"),
        (⟨"ig1", "http://example.org/ig", "Example IG"⟩ :
          FhirServer.IgContext)) ∧
    FhirServer.fhir_get_current_implementation_guide_context
      (⟨"ig1", "http://example.org/ig", "Example IG"⟩ :
        FhirServer.IgContext) ≠ FhirServer.noCtxMsg := by
  refine ⟨by decide, by decide, by decide⟩

/-- C8 amended: in fhir_mcp_server.py, invoking the setter with neither
an id nor a url clears the context (resetting it to the empty dict,
issuing no request), and a read of the cleared context reports that no
context is set; in fhir_server.py, the same invocation instead returns an
error and leaves the stored context unchanged. -/
theorem c8_clear_semantics :
    (∀ (st : Json) (net : Request → NetResult),
      McpServer.fhir_set_implementation_guide_context st "" "" net =
        ([], McpServer.ok ++ " ImplementationGuide context cleared.",
          Json.obj JsonObj.nil)) ∧
    McpServer.fhir_get_current_implementation_guide_context
      (Json.obj JsonObj.nil) = McpServer.noCtxMsg ∧
    (∀ (ctx : FhirServer.IgContext) (net : Request → NetResult),
      FhirServer.fhir_set_implementation_guide_context ctx "" "" net =
        ([], Except.ok ("❌ Error: Either implementation_guide_id or " ++
          "implementation_guide_url is required"), ctx)) := by
  refine ⟨fun st net => rfl, rfl, fun ctx net => rfl⟩

/-- C2 counterexample: applying a PlanDefinition with the unprefixed
subject `"123"` sends the query parameter `subject=123` exactly as
supplied — the outbound request does not carry the normalized
`subject=Patient/123` the claim requires.  Both the immunization-server
and the mcp-server variants behave this way. -/
theorem c2_subject_sent_raw :
    (Immunization.apply_plan_definition "pd1" "123" "" ""
      (fun _ => NetResult.ok Json.null)).1 =
      [⟨"GET", "/PlanDefinition/pd1/$apply", some [("subject", "123")],
        none, "fhir"⟩] ∧
    ¬(("subject", "Patient/123") ∈
      ([("subject", "123")] : List (String × String))) ∧
    (McpServer.fhir_apply_plan_definition "pd1" "123" "" "" ""
      (fun _ => NetResult.ok Json.null)).1 =
      [⟨"GET", "PlanDefinition/pd1/$apply", some [("subject", "123")],
        none, "fhir"⟩] := by
  refine ⟨by decide, by decide, by decide⟩

/-- C2 amended: for every invocation of the apply-PlanDefinition
operation with a non-blank subject, the single outbound `$apply` request
carries a `subject` query parameter equal to the supplied subject
(whitespace-stripped) exactly as given — no `Patient/` resource-type
prefix is added when the value has none. -/
theorem c2_subject_passed_verbatim
    (pd subject enc prac org : String) (net : Request → NetResult)
    (hpd : isBlank pd = false) (hsub : isBlank subject = false) :
    (∃ req ps, (Immunization.apply_plan_definition pd subject enc prac
        net).1 = [req] ∧ req.params = some ps ∧
      ("subject", pyStrip subject) ∈ ps ∧
      ∀ v, ("subject", v) ∈ ps → v = pyStrip subject) ∧
    (∃ req ps, (McpServer.fhir_apply_plan_definition pd subject enc prac
        org net).1 = [req] ∧ req.params = some ps ∧
      ("subject", subject) ∈ ps ∧
      ∀ v, ("subject", v) ∈ ps → v = subject) := by
  constructor
  · have hrun : (Immunization.apply_plan_definition pd subject enc prac
        net).1 =
        [⟨"GET", "/PlanDefinition/" ++ pyStrip pd ++ "/$apply",
          some ([("subject", pyStrip subject)] ++
            (if isBlank enc then [] else [("encounter", pyStrip enc)]) ++
            (if isBlank prac then []
             else [("practitioner", pyStrip prac)])), none, "fhir"⟩] := by
      simp [Immunization.apply_plan_definition, hpd, hsub]
    refine ⟨_, _, hrun, rfl, by simp, ?_⟩
    intro v hv
    rw [List.append_assoc] at hv
    rcases List.mem_append.mp hv with hv | hv
    · simpa using hv
    · exfalso
      rcases List.mem_append.mp hv with hv | hv
      · by_cases he : isBlank enc <;> simp [he] at hv
      · by_cases hp : isBlank prac <;> simp [hp] at hv
  · have hrun : (McpServer.fhir_apply_plan_definition pd subject enc prac
        org net).1 =
        [⟨"GET", "PlanDefinition/" ++ pd ++ "/$apply",
          some ([("subject", subject)] ++
            (if isBlank enc then [] else [("encounter", pyStrip enc)]) ++
            (if isBlank prac then []
             else [("practitioner", pyStrip prac)]) ++
            (if isBlank org then []
             else [("organization", pyStrip org)])), none, "fhir"⟩] := by
      simp [McpServer.fhir_apply_plan_definition]
    refine ⟨_, _, hrun, rfl, by simp, ?_⟩
    intro v hv
    rw [List.append_assoc, List.append_assoc] at hv
    rcases List.mem_append.mp hv with hv | hv
    · simpa using hv
    · exfalso
      rcases List.mem_append.mp hv with hv | hv
      · by_cases he : isBlank enc <;> simp [he] at hv
      · rcases List.mem_append.mp hv with hv | hv
        · by_cases hp : isBlank prac <;> simp [hp] at hv
        · by_cases ho : isBlank org <;> simp [ho] at hv

/-- C2 witness: the amended statement applied to the unprefixed subject
`"123"`. -/
theorem c2_subject_witness :
    isBlank "pd1" = false ∧ isBlank "123" = false ∧
    (∃ req ps, (Immunization.apply_plan_definition "pd1" "123" "" ""
        (fun _ => NetResult.ok Json.null)).1 = [req] ∧
      req.params = some ps ∧ ("subject", pyStrip "123") ∈ ps ∧
      ∀ v, ("subject", v) ∈ ps → v = pyStrip "123") :=
  ⟨by decide, by decide,
    (c2_subject_passed_verbatim "pd1" "123" "" "" ""
      (fun _ => NetResult.ok Json.null) (by decide) (by decide)).1⟩

/-- C6 counterexample: fhir_mcp_server.py's `fhir_get_resource` on an
HTTP 404 (body not an OperationOutcome) returns `_handle_fhir_error`'s
fixed not-found message, which mentions neither the requested type
`"Patient"` nor the requested id `"999"`. -/
theorem c6_mcp_404_lacks_type_and_id :
    (McpServer.fhir_get_resource "Patient" "999" "json"
      (fun _ => NetResult.httpError 404 "Not Found")).2 =
      McpServer.xm ++
        " Error: Resource not found. Please verify the resource type and ID." ∧
    mentions ((McpServer.fhir_get_resource "Patient" "999" "json"
      (fun _ => NetResult.httpError 404 "Not Found")).2) "999" = false ∧
    mentions ((McpServer.fhir_get_resource "Patient" "999" "json"
      (fun _ => NetResult.httpError 404 "Not Found")).2) "Patient" = false := by
  refine ⟨by decide, by decide, by decide⟩

/-- C6 amended: the immunization-server variant of the get-resource
operation does satisfy the property: on an HTTP 404 its result is a
not-found message naming both the requested resource type and the
requested id; the mcp-server variant returns a fixed message naming
neither (see the counterexample). -/
theorem c6_imm_404_names_type_and_id
    (resource_type resource_id body : String) (net : Request → NetResult)
    (h1 : isBlank resource_type = false) (h2 : isBlank resource_id = false)
    (hnet : net ⟨"GET", "/" ++ pyStrip resource_type ++ "/" ++
      pyStrip resource_id, none, none, "fhir"⟩ =
      NetResult.httpError 404 body) :
    (Immunization.get_fhir_resource resource_type resource_id net).2 =
      "❌ Resource not found: " ++ resource_type ++ "/" ++ resource_id ∧
    mentions ((Immunization.get_fhir_resource resource_type resource_id
      net).2) resource_type = true ∧
    mentions ((Immunization.get_fhir_resource resource_type resource_id
      net).2) resource_id = true := by
  have hout : (Immunization.get_fhir_resource resource_type resource_id
      net).2 =
      "❌ Resource not found: " ++ resource_type ++ "/" ++ resource_id := by
    simp [Immunization.get_fhir_resource, h1, h2, Immunization.fhirRequest,
      hnet]
  refine ⟨hout, ?_, ?_⟩
  · rw [hout]
    have h3 : "❌ Resource not found: " ++ resource_type ++ "/" ++
        resource_id =
        "❌ Resource not found: " ++ resource_type ++
          ("/" ++ resource_id) := by
      rw [string_append_assoc]
    rw [h3]
    exact mentions_middle "❌ Resource not found: " resource_type
      ("/" ++ resource_id)
  · rw [hout]
    have h3 : "❌ Resource not found: " ++ resource_type ++ "/" ++
        resource_id =
        ("❌ Resource not found: " ++ resource_type ++ "/") ++
          resource_id ++ "" := by
      rw [string_append_empty]
    rw [h3]
    exact mentions_middle ("❌ Resource not found: " ++ resource_type ++ "/")
      resource_id ""

/-- C6 witness: the amended statement at type `"Patient"`, id `"999"`. -/
theorem c6_imm_404_witness :
    isBlank "Patient" = false ∧ isBlank "999" = false ∧
    ((Immunization.get_fhir_resource "Patient" "999"
      (fun _ => NetResult.httpError 404 "gone")).2 =
      "❌ Resource not found: " ++ "Patient" ++ "/" ++ "999" ∧
    mentions ((Immunization.get_fhir_resource "Patient" "999"
      (fun _ => NetResult.httpError 404 "gone")).2) "Patient" = true ∧
    mentions ((Immunization.get_fhir_resource "Patient" "999"
      (fun _ => NetResult.httpError 404 "gone")).2) "999" = true) :=
  ⟨by decide, by decide,
    c6_imm_404_names_type_and_id "Patient" "999" "gone"
      (fun _ => NetResult.httpError 404 "gone") (by decide) (by decide) rfl⟩

/-- The ImplementationGuide context value used for the C7
counterexample. -/
def c7Ctx : Json :=
  Json.obj (JsonObj.cons "id" (Json.str "ig1")
    (JsonObj.cons "url" (Json.str "http://example.org/ig")
      (JsonObj.cons "name" (Json.str "Example IG") JsonObj.nil)))

/-- The resource body used for the C7 counterexample. -/
def c7Body : Json :=
  Json.obj (JsonObj.cons "resourceType" (Json.str "Patient") JsonObj.nil)

/-- C7 counterexample: fhir_mcp_server.py's create operation never
consults the ImplementationGuide context: with a non-empty context set,
the outbound POST carries no query parameters at all, hence no
`profile` parameter. -/
theorem c7_mcp_create_ignores_context :
    Json.pyTruthy c7Ctx = true ∧
    (McpServer.fhir_create_resource c7Ctx (Json.dumps c7Body)
      (fun _ => NetResult.ok (Json.obj (JsonObj.cons "id" (Json.str "p1")
        JsonObj.nil)))).1 =
      [⟨"POST", "Patient", none, some c7Body, "fhir"⟩] := by
  refine ⟨by decide, by decide⟩

/-- C7 amended: in fhir_server.py's create operation the outbound POST
carries a `profile` query parameter equal to the context url exactly when
the stored context has a non-empty url, and no parameters otherwise; the
fhir_mcp_server.py create operation never attaches a `profile` parameter
regardless of the context state. -/
theorem c7_profile_iff_context_url
    (ctx : FhirServer.IgContext) (body : String) (o : JsonObj) (rt : Json)
    (net : Request → NetResult) (h1 : isBlank body = false)
    (h2 : parseJson body = some (Json.obj o))
    (h3 : o.get "resourceType" = some rt) (h4 : rt.pyTruthy = true) :
    (ctx.url ≠ "" → (FhirServer.fhir_create_resource ctx body net).1 =
      [⟨"POST", pyToStr rt, some [("profile", ctx.url)],
        some (Json.obj o), "fhir"⟩]) ∧
    (ctx.url = "" → (FhirServer.fhir_create_resource ctx body net).1 =
      [⟨"POST", pyToStr rt, none, some (Json.obj o), "fhir"⟩]) ∧
    (∀ st : Json, (McpServer.fhir_create_resource st body net).1 =
      [⟨"POST", pyToStr rt, none, some (Json.obj o), "fhir"⟩]) := by
  refine ⟨?_, ?_, ?_⟩
  · intro hurl
    simp [FhirServer.fhir_create_resource, h1, h2, h3, h4, hurl]
  · intro hurl
    simp [FhirServer.fhir_create_resource, h1, h2, h3, h4, hurl]
  · intro st
    simp [McpServer.fhir_create_resource, h2, h3, h4]

/-- C7 witness: the amended statement at a concrete context and body,
with the context url both set and empty. -/
theorem c7_profile_witness :
    ((⟨"ig1", "http://example.org/ig", "Example IG"⟩ :
        FhirServer.IgContext).url ≠ "" →
      (FhirServer.fhir_create_resource
        ⟨"ig1", "http://example.org/ig", "Example IG"⟩ (Json.dumps c7Body)
        (fun _ => NetResult.ok Json.null)).1 =
        [⟨"POST", pyToStr (Json.str "Patient"),
          some [("profile", "http://example.org/ig")], some c7Body,
          "fhir"⟩]) ∧
    ((⟨"", "", ""⟩ : FhirServer.IgContext).url = "" →
      (FhirServer.fhir_create_resource ⟨"", "", ""⟩ (Json.dumps c7Body)
        (fun _ => NetResult.ok Json.null)).1 =
        [⟨"POST", pyToStr (Json.str "Patient"), none, some c7Body,
          "fhir"⟩]) :=
  ⟨(c7_profile_iff_context_url ⟨"ig1", "http://example.org/ig", "Example IG"⟩
      (Json.dumps c7Body) _ (Json.str "Patient")
      (fun _ => NetResult.ok Json.null) (by decide)
      (parse_dumps c7Body) (by decide) (by decide)).1,
   (c7_profile_iff_context_url ⟨"", "", ""⟩
      (Json.dumps c7Body) _ (Json.str "Patient")
      (fun _ => NetResult.ok Json.null) (by decide)
      (parse_dumps c7Body) (by decide) (by decide)).2.1⟩

/-- The update body used for the C1 counterexample: a resource whose
`resourceType` is `"Observation"`. -/
def c1Body : Json :=
  Json.obj (JsonObj.cons "resourceType" (Json.str "Observation") JsonObj.nil)

/-- C1 counterexample: fhir_mcp_server.py's update operation invoked as
update resource(type="Patient", id="42") with a body whose resourceType
is "Observation" does not send a PUT with the fields overridden — it
fails: the mismatch is rejected with an error string and zero outbound
requests. -/
theorem c1_mcp_update_mismatch_fails :
    McpServer.fhir_update_resource "Patient" "42" (Json.dumps c1Body)
      (fun _ => NetResult.ok Json.null) =
      ([], McpServer.updateMismatchMsg "Observation" "Patient") := by
  decide

/-- C1 amended: in fhir_server.py's update operation the outbound PUT
body always has its `id` forced to the path id and its `resourceType`
forced to the path type, overriding any supplied values; in
fhir_mcp_server.py's copy the same forcing happens only when the body's
`resourceType` is absent, falsy, or equal to the path type — a truthy
differing `resourceType` is rejected with an error and no request. -/
theorem c1_update_forces_path_identity :
    (∀ (rt rid body : String) (o : JsonObj) (net : Request → NetResult),
      isBlank rt = false → isBlank rid = false → isBlank body = false →
      parseJson body = some (Json.obj o) →
      ∃ o2, (FhirServer.fhir_update_resource rt rid body net).1 =
          [⟨"PUT", rt ++ "/" ++ rid, none, some (Json.obj o2), "fhir"⟩] ∧
        o2.get "id" = some (Json.str rid) ∧
        o2.get "resourceType" = some (Json.str rt)) ∧
    (∀ (rt rid body : String) (o : JsonObj) (net : Request → NetResult),
      parseJson body = some (Json.obj o) →
      (o.get "resourceType" = none ∨
        o.get "resourceType" = some (Json.str rt) ∨
        (∃ v, o.get "resourceType" = some v ∧ v.pyTruthy = false)) →
      ∃ o2, (McpServer.fhir_update_resource rt rid body net).1 =
          [⟨"PUT", rt ++ "/" ++ rid, none, some (Json.obj o2), "fhir"⟩] ∧
        o2.get "id" = some (Json.str rid) ∧
        o2.get "resourceType" = some (Json.str rt)) ∧
    (∀ (rt rid body : String) (o : JsonObj) (v : Json)
        (net : Request → NetResult),
      parseJson body = some (Json.obj o) →
      o.get "resourceType" = some v → v.pyTruthy = true →
      v ≠ Json.str rt →
      (McpServer.fhir_update_resource rt rid body net).1 = []) := by
  refine ⟨?_, ?_, ?_⟩
  · intro rt rid body o net h1 h2 h3 h4
    by_cases hne : (o.set "id" (Json.str rid)).get "resourceType" ≠
      some (Json.str rt)
    · refine ⟨(o.set "id" (Json.str rid)).set "resourceType" (Json.str rt),
        ?_, ?_, ?_⟩
      · simp [FhirServer.fhir_update_resource, h1, h2, h3, h4, hne]
      · rw [jsonObjGet_set_other _ _ _ _ (by decide), jsonObjGet_set_self]
      · rw [jsonObjGet_set_self]
    · rw [not_not] at hne
      refine ⟨o.set "id" (Json.str rid), ?_, ?_, hne⟩
      · simp [FhirServer.fhir_update_resource, h1, h2, h3, h4, hne]
      · rw [jsonObjGet_set_self]
  · intro rt rid body o net h1 h2
    have hcondB : ((match o.get "resourceType" with
        | some v => v.pyTruthy
        | none => false) &&
        (o.get "resourceType" != some (Json.str rt))) = false := by
      rcases h2 with h2 | h2 | ⟨v, hv, hvf⟩
      · simp [h2]
      · simp [h2]
      · simp [hv, hvf]
    refine ⟨(o.set "id" (Json.str rid)).set "resourceType" (Json.str rt),
      ?_, ?_, ?_⟩
    · simp [McpServer.fhir_update_resource, h1, hcondB]
    · rw [jsonObjGet_set_other _ _ _ _ (by decide), jsonObjGet_set_self]
    · rw [jsonObjGet_set_self]
  · intro rt rid body o v net h1 h2 h3 h4
    have hcondB : ((match o.get "resourceType" with
        | some v => v.pyTruthy
        | none => false) &&
        (o.get "resourceType" != some (Json.str rt))) = true := by
      simp [h2, h3, bne_iff_ne]
      exact h4
    simp [McpServer.fhir_update_resource, h1, hcondB]

/-- C1 witness: the amended statement applied at type "Patient", id
"42" with the Observation-typed body (fhir_server.py variant, where the
override happens) and with a matching body (fhir_mcp_server.py
variant). -/
theorem c1_update_forces_witness :
    (∃ o2, (FhirServer.fhir_update_resource "Patient" "42"
        (Json.dumps c1Body) (fun _ => NetResult.ok Json.null)).1 =
        [⟨"PUT", "Patient" ++ "/" ++ "42", none, some (Json.obj o2),
          "fhir"⟩] ∧
      o2.get "id" = some (Json.str "42") ∧
      o2.get "resourceType" = some (Json.str "Patient")) ∧
    (∃ o2, (McpServer.fhir_update_resource "Patient" "42"
        (Json.dumps (Json.obj JsonObj.nil))
        (fun _ => NetResult.ok Json.null)).1 =
        [⟨"PUT", "Patient" ++ "/" ++ "42", none, some (Json.obj o2),
          "fhir"⟩] ∧
      o2.get "id" = some (Json.str "42") ∧
      o2.get "resourceType" = some (Json.str "Patient")) ∧
    (McpServer.fhir_update_resource "Patient" "42" (Json.dumps c1Body)
      (fun _ => NetResult.ok Json.null)).1 = [] :=
  ⟨c1_update_forces_path_identity.1 "Patient" "42" (Json.dumps c1Body) _
    (fun _ => NetResult.ok Json.null) (by decide) (by decide) (by decide)
    (parse_dumps c1Body),
   c1_update_forces_path_identity.2.1 "Patient" "42"
    (Json.dumps (Json.obj JsonObj.nil)) _ (fun _ => NetResult.ok Json.null)
    (parse_dumps (Json.obj JsonObj.nil)) (Or.inl (by decide)),
   c1_update_forces_path_identity.2.2 "Patient" "42" (Json.dumps c1Body) _
    (Json.str "Observation") (fun _ => NetResult.ok Json.null)
    (parse_dumps c1Body) (by decide) (by decide) (by decide)⟩

/-- The two-issue OperationOutcome of the C5 scenario. -/
def c5Issue1 : Json :=
  Json.obj (JsonObj.cons "severity" (Json.str "error")
    (JsonObj.cons "diagnostics" (Json.str "bad code") JsonObj.nil))

/-- The second C5 issue, of severity "warning". -/
def c5Issue2 : Json :=
  Json.obj (JsonObj.cons "severity" (Json.str "warning")
    (JsonObj.cons "diagnostics" (Json.str "deprecated field") JsonObj.nil))

/-- The OperationOutcome carrying the two C5 issues. -/
def c5Oo : Json :=
  Json.obj (JsonObj.cons "resourceType" (Json.str "OperationOutcome")
    (JsonObj.cons "issue"
      (Json.arr (JsonList.ofList [c5Issue1, c5Issue2])) JsonObj.nil))

set_option maxRecDepth 16384 in
/-- C5 counterexample: fhir_server.py's `$apply` error handler (one of
the claim's cited sources) formats the two-issue OperationOutcome as
plain `- message` lines: both messages appear, but neither is tagged
with its issue's severity — `[warning]` (and `[error]`) occur nowhere in
the output. -/
theorem c5_apply_handler_drops_severity :
    (FhirServer.fhir_apply_plan_definition "pd1" "Patient/1" "" "" ""
      (fun _ => NetResult.httpError 400 (Json.dumps c5Oo))).2 =
      Except.ok "❌ Operation Error:\n- bad code\n- deprecated field" ∧
    mentions "❌ Operation Error:\n- bad code\n- deprecated field"
      "deprecated field" = true ∧
    mentions "❌ Operation Error:\n- bad code\n- deprecated field"
      "[warning]" = false ∧
    mentions "❌ Operation Error:\n- bad code\n- deprecated field"
      "[error]" = false := by
  refine ⟨by decide, by decide, by decide, by decide⟩

/-- C5 amended: the `_handle_fhir_error` normalizer of fhir_mcp_server.py
does satisfy the per-issue format: each OperationOutcome issue becomes
one `[severity] message` line where the severity defaults to "error"
when absent and the message falls back from `diagnostics` to
`details.text` to "Unknown error", and the normalized text of an
OperationOutcome response is the status header followed by exactly one
such line per issue (so each issue's message is tagged with that issue's
own severity); fhir_server.py's `$apply` handler instead emits untagged
`- message` lines (see the counterexample). -/
theorem c5_mcp_normalizer_tags_severity :
    (∀ sev msg : String, McpServer.formatIssue
      (Json.obj (JsonObj.cons "severity" (Json.str sev)
        (JsonObj.cons "diagnostics" (Json.str msg) JsonObj.nil))) =
      some ("[" ++ sev ++ "] " ++ msg)) ∧
    (∀ msg : String, McpServer.formatIssue
      (Json.obj (JsonObj.cons "diagnostics" (Json.str msg) JsonObj.nil)) =
      some ("[" ++ "error" ++ "] " ++ msg)) ∧
    (∀ sev txt : String, McpServer.formatIssue
      (Json.obj (JsonObj.cons "severity" (Json.str sev)
        (JsonObj.cons "details"
          (Json.obj (JsonObj.cons "text" (Json.str txt) JsonObj.nil))
          JsonObj.nil))) =
      some ("[" ++ sev ++ "] " ++ txt)) ∧
    (∀ sev : String, McpServer.formatIssue
      (Json.obj (JsonObj.cons "severity" (Json.str sev) JsonObj.nil)) =
      some ("[" ++ sev ++ "] " ++ "Unknown error")) ∧
    (∀ (status : Nat) (issues : List Json) (msgs : List String),
      McpServer.formatIssues issues = some msgs →
      McpServer.handle_fhir_error (PyExn.httpStatusError status
        (Json.dumps (Json.obj (JsonObj.cons "resourceType"
          (Json.str "OperationOutcome")
          (JsonObj.cons "issue" (Json.arr (JsonList.ofList issues))
            JsonObj.nil))))) =
        McpServer.xm ++ " FHIR Error (" ++ toString status ++ "):\n" ++
          String.intercalate "\n" msgs ∧
      msgs.length = issues.length) := by
  refine ⟨?_, ?_, ?_, ?_, ?_⟩
  · intro sev msg
    simp [McpServer.formatIssue, JsonObj.get, pyToStr]
  · intro msg
    simp [McpServer.formatIssue, JsonObj.get, pyToStr]
    congr 1
  · intro sev txt
    simp [McpServer.formatIssue, JsonObj.get, pyToStr]
  · intro sev
    simp [McpServer.formatIssue, JsonObj.get, pyToStr]
  · intro status issues msgs h
    constructor
    · have hoo : McpServer.ooLines (Json.dumps (Json.obj (JsonObj.cons
          "resourceType" (Json.str "OperationOutcome")
          (JsonObj.cons "issue" (Json.arr (JsonList.ofList issues))
            JsonObj.nil)))) = some msgs := by
        rw [McpServer.ooLines, parse_dumps]
        simp [JsonObj.get, jsonList_toList_ofList, h]
      simp [McpServer.handle_fhir_error, hoo]
    · exact mcp_formatIssues_length issues msgs h

/-- C5 witness: the amended statement at the two-issue scenario of the
spec — both messages appear, each tagged with its own severity. -/
theorem c5_mcp_normalizer_witness :
    McpServer.formatIssues [c5Issue1, c5Issue2] =
      some ["[error] bad code", "[warning] deprecated field"] ∧
    McpServer.handle_fhir_error (PyExn.httpStatusError 400
      (Json.dumps (Json.obj (JsonObj.cons "resourceType"
        (Json.str "OperationOutcome")
        (JsonObj.cons "issue"
          (Json.arr (JsonList.ofList [c5Issue1, c5Issue2]))
          JsonObj.nil))))) =
      McpServer.xm ++ " FHIR Error (" ++ toString (400 : Nat) ++ "):\n" ++
        String.intercalate "\n"
          ["[error] bad code", "[warning] deprecated field"] ∧
    mentions (String.intercalate "\n"
      ["[error] bad code", "[warning] deprecated field"])
      "[warning] deprecated field" = true :=
  ⟨by decide,
   (c5_mcp_normalizer_tags_severity.2.2.2.2 400 [c5Issue1, c5Issue2]
     ["[error] bad code", "[warning] deprecated field"] (by decide)).1,
   by decide⟩

/-- C3: for every embedded operation with required identifier-shaped
string parameters (`resource_type`, `resource_id`, `plan_definition_id`,
`subject`, `system`, `code`) and for the required `resource_json` body,
invoking it with a value that is empty or whitespace-only after trimming
returns the fixed-format `❌ Error: <param> is required` string and
issues zero network requests. -/
theorem c3_blank_required_param_no_network :
    (∀ (pd fmt : String) (net : Request → NetResult), isBlank pd = true →
      FhirServer.fhir_get_plan_definition pd fmt net =
        ([], Except.ok "❌ Error: plan_definition_id is required")) ∧
    (∀ (rt rid fmt : String) (net : Request → NetResult),
      isBlank rt = true →
      FhirServer.fhir_get_resource rt rid fmt net =
        ([], Except.ok "❌ Error: resource_type is required")) ∧
    (∀ (rt rid fmt : String) (net : Request → NetResult),
      isBlank rt = false → isBlank rid = true →
      FhirServer.fhir_get_resource rt rid fmt net =
        ([], Except.ok "❌ Error: resource_id is required")) ∧
    (∀ (rt rid rj : String) (net : Request → NetResult),
      isBlank rt = true →
      FhirServer.fhir_update_resource rt rid rj net =
        ([], Except.ok "❌ Error: resource_type is required")) ∧
    (∀ (rt rid rj : String) (net : Request → NetResult),
      isBlank rt = false → isBlank rid = true →
      FhirServer.fhir_update_resource rt rid rj net =
        ([], Except.ok "❌ Error: resource_id is required")) ∧
    (∀ (rt rid rj : String) (net : Request → NetResult),
      isBlank rt = false → isBlank rid = false → isBlank rj = true →
      FhirServer.fhir_update_resource rt rid rj net =
        ([], Except.ok "❌ Error: resource_json is required")) ∧
    (∀ (rt rid : String) (net : Request → NetResult), isBlank rt = true →
      FhirServer.fhir_delete_resource rt rid net =
        ([], Except.ok "❌ Error: resource_type is required")) ∧
    (∀ (rt rid : String) (net : Request → NetResult),
      isBlank rt = false → isBlank rid = true →
      FhirServer.fhir_delete_resource rt rid net =
        ([], Except.ok "❌ Error: resource_id is required")) ∧
    (∀ (pd subj e p o : String) (net : Request → NetResult),
      isBlank pd = true →
      FhirServer.fhir_apply_plan_definition pd subj e p o net =
        ([], Except.ok "❌ Error: plan_definition_id is required")) ∧
    (∀ (pd subj e p o : String) (net : Request → NetResult),
      isBlank pd = false → isBlank subj = true →
      FhirServer.fhir_apply_plan_definition pd subj e p o net =
        ([], Except.ok "❌ Error: subject is required (e.g., Patient/123)")) ∧
    (∀ (sys code ver : String) (net : Request → NetResult),
      isBlank sys = true →
      FhirServer.fhir_lookup_code sys code ver net =
        ([], Except.ok "❌ Error: system is required")) ∧
    (∀ (sys code ver : String) (net : Request → NetResult),
      isBlank sys = false → isBlank code = true →
      FhirServer.fhir_lookup_code sys code ver net =
        ([], Except.ok "❌ Error: code is required")) ∧
    (∀ (pd subj e p : String) (net : Request → NetResult),
      isBlank pd = true →
      Immunization.apply_plan_definition pd subj e p net =
        ([], "❌ Error: plan_definition_id is required")) ∧
    (∀ (pd subj e p : String) (net : Request → NetResult),
      isBlank pd = false → isBlank subj = true →
      Immunization.apply_plan_definition pd subj e p net =
        ([], "❌ Error: subject (Patient reference like " ++
          sqWrap "Patient/123" ++ ") is required")) ∧
    (∀ (rt rid : String) (net : Request → NetResult), isBlank rt = true →
      Immunization.get_fhir_resource rt rid net =
        ([], "❌ Error: resource_type is required")) ∧
    (∀ (rt rid : String) (net : Request → NetResult),
      isBlank rt = false → isBlank rid = true →
      Immunization.get_fhir_resource rt rid net =
        ([], "❌ Error: resource_id is required")) := by
  refine ⟨?_, ?_, ?_, ?_, ?_, ?_, ?_, ?_, ?_, ?_, ?_, ?_, ?_, ?_, ?_, ?_⟩
  · intro pd fmt net h
    simp [FhirServer.fhir_get_plan_definition, h]
  · intro rt rid fmt net h
    simp [FhirServer.fhir_get_resource, h]
  · intro rt rid fmt net h1 h2
    simp [FhirServer.fhir_get_resource, h1, h2]
  · intro rt rid rj net h
    simp [FhirServer.fhir_update_resource, h]
  · intro rt rid rj net h1 h2
    simp [FhirServer.fhir_update_resource, h1, h2]
  · intro rt rid rj net h1 h2 h3
    simp [FhirServer.fhir_update_resource, h1, h2, h3]
  · intro rt rid net h
    simp [FhirServer.fhir_delete_resource, h]
  · intro rt rid net h1 h2
    simp [FhirServer.fhir_delete_resource, h1, h2]
  · intro pd subj e p o net h
    simp [FhirServer.fhir_apply_plan_definition, h]
  · intro pd subj e p o net h1 h2
    simp [FhirServer.fhir_apply_plan_definition, h1, h2]
  · intro sys code ver net h
    simp [FhirServer.fhir_lookup_code, h]
  · intro sys code ver net h1 h2
    simp [FhirServer.fhir_lookup_code, h1, h2]
  · intro pd subj e p net h
    simp [Immunization.apply_plan_definition, h]
  · intro pd subj e p net h1 h2
    simp [Immunization.apply_plan_definition, h1, h2]
  · intro rt rid net h
    simp [Immunization.get_fhir_resource, h]
  · intro rt rid net h1 h2
    simp [Immunization.get_fhir_resource, h1, h2]

/-- C3 witness: each embedded validation branch evaluated at a
whitespace-only required value (and non-blank preceding parameters). -/
theorem c3_blank_param_witness :
    isBlank " " = true ∧ isBlank "x" = false ∧
    FhirServer.fhir_get_plan_definition " " "markdown"
      (fun _ => NetResult.ok Json.null) =
      ([], Except.ok "❌ Error: plan_definition_id is required") ∧
    FhirServer.fhir_get_resource "x" " " "json"
      (fun _ => NetResult.ok Json.null) =
      ([], Except.ok "❌ Error: resource_id is required") ∧
    FhirServer.fhir_update_resource "x" "x" " "
      (fun _ => NetResult.ok Json.null) =
      ([], Except.ok "❌ Error: resource_json is required") ∧
    FhirServer.fhir_delete_resource " " "x"
      (fun _ => NetResult.ok Json.null) =
      ([], Except.ok "❌ Error: resource_type is required") ∧
    FhirServer.fhir_apply_plan_definition "x" " " "" "" ""
      (fun _ => NetResult.ok Json.null) =
      ([], Except.ok "❌ Error: subject is required (e.g., Patient/123)") ∧
    FhirServer.fhir_lookup_code " " "c1" ""
      (fun _ => NetResult.ok Json.null) =
      ([], Except.ok "❌ Error: system is required") ∧
    FhirServer.fhir_lookup_code "http://loinc.org" " " ""
      (fun _ => NetResult.ok Json.null) =
      ([], Except.ok "❌ Error: code is required") ∧
    Immunization.apply_plan_definition " " "Patient/1" "" ""
      (fun _ => NetResult.ok Json.null) =
      ([], "❌ Error: plan_definition_id is required") ∧
    Immunization.get_fhir_resource "x" " "
      (fun _ => NetResult.ok Json.null) =
      ([], "❌ Error: resource_id is required") :=
  ⟨by decide, by decide,
   c3_blank_required_param_no_network.1 " " "markdown" _ (by decide),
   c3_blank_required_param_no_network.2.2.1 "x" " " "json" _ (by decide)
     (by decide),
   c3_blank_required_param_no_network.2.2.2.2.2.1 "x" "x" " " _ (by decide)
     (by decide) (by decide),
   c3_blank_required_param_no_network.2.2.2.2.2.2.1 " " "x" _ (by decide),
   c3_blank_required_param_no_network.2.2.2.2.2.2.2.2.2.1 "x" " " "" "" "" _
     (by decide) (by decide),
   c3_blank_required_param_no_network.2.2.2.2.2.2.2.2.2.2.1 " " "c1" "" _
     (by decide),
   c3_blank_required_param_no_network.2.2.2.2.2.2.2.2.2.2.2.1
     "http://loinc.org" " " "" _ (by decide) (by decide),
   c3_blank_required_param_no_network.2.2.2.2.2.2.2.2.2.2.2.2.1
     " " "Patient/1" "" "" _ (by decide),
   c3_blank_required_param_no_network.2.2.2.2.2.2.2.2.2.2.2.2.2.2.2
     "x" " " _ (by decide) (by decide)⟩

/-- C10: in both context-setter variants, a failed invocation leaves the
stored ImplementationGuide context unchanged: when the guide fetch
raises (HTTP error status, timeout, connection failure) or the lookup by
url matches no ImplementationGuide, the state after the call equals the
state before it — the shared context is written only after a successful
fetch. -/
theorem c10_failed_set_context_preserves_state :
    (∀ (ctx : FhirServer.IgContext) (gid gurl : String)
        (net : Request → NetResult), isBlank gid = false →
      isFailNet (net ⟨"GET", "ImplementationGuide/" ++ gid, none, none,
        "fhir"⟩) = true →
      (FhirServer.fhir_set_implementation_guide_context ctx gid gurl
        net).2.2 = ctx) ∧
    (∀ (ctx : FhirServer.IgContext) (gurl : String)
        (net : Request → NetResult) (bundle : Json),
      isBlank gurl = false →
      net ⟨"GET", "ImplementationGuide", some [("url", gurl)], none,
        "fhir"⟩ = NetResult.ok bundle →
      noEntries bundle →
      (FhirServer.fhir_set_implementation_guide_context ctx "" gurl
        net).2.2 = ctx) ∧
    (∀ (ctx : FhirServer.IgContext) (gurl : String)
        (net : Request → NetResult), isBlank gurl = false →
      isFailNet (net ⟨"GET", "ImplementationGuide",
        some [("url", gurl)], none, "fhir"⟩) = true →
      (FhirServer.fhir_set_implementation_guide_context ctx "" gurl
        net).2.2 = ctx) ∧
    (∀ (st : Json) (gid gurl : String) (net : Request → NetResult),
      isBlank gid = false →
      isFailNet (net ⟨"GET", "ImplementationGuide/" ++ pyStrip gid, none,
        none, "fhir"⟩) = true →
      (McpServer.fhir_set_implementation_guide_context st gid gurl
        net).2.2 = st) ∧
    (∀ (st : Json) (gurl : String) (net : Request → NetResult)
        (bundle : Json), isBlank gurl = false →
      net ⟨"GET", "ImplementationGuide", some [("url", pyStrip gurl)],
        none, "fhir"⟩ = NetResult.ok bundle →
      noEntries bundle →
      (McpServer.fhir_set_implementation_guide_context st "" gurl
        net).2.2 = st) ∧
    (∀ (st : Json) (gurl : String) (net : Request → NetResult),
      isBlank gurl = false →
      isFailNet (net ⟨"GET", "ImplementationGuide",
        some [("url", pyStrip gurl)], none, "fhir"⟩) = true →
      (McpServer.fhir_set_implementation_guide_context st "" gurl
        net).2.2 = st) := by
  refine ⟨?_, ?_, ?_, ?_, ?_, ?_⟩
  · intro ctx gid gurl net h1 h2
    cases hr : net ⟨"GET", "ImplementationGuide/" ++ gid, none, none,
      "fhir"⟩ with
    | ok j => rw [hr] at h2; exact absurd h2 (by simp [isFailNet])
    | noContent => rw [hr] at h2; exact absurd h2 (by simp [isFailNet])
    | httpError s t =>
      simp [FhirServer.fhir_set_implementation_guide_context, h1,
        FhirServer.make_fhir_request, hr]
    | timeoutErr =>
      simp [FhirServer.fhir_set_implementation_guide_context, h1,
        FhirServer.make_fhir_request, hr]
    | connectErr =>
      simp [FhirServer.fhir_set_implementation_guide_context, h1,
        FhirServer.make_fhir_request, hr]
  · intro ctx gurl net bundle h1 h2 h3
    rcases h3 with h3 | h3 <;>
      simp [FhirServer.fhir_set_implementation_guide_context, h1,
        FhirServer.make_fhir_request, h2, h3,
        (by decide : isBlank "" = true)]
  · intro ctx gurl net h1 h2
    cases hr : net ⟨"GET", "ImplementationGuide", some [("url", gurl)],
      none, "fhir"⟩ with
    | ok j => rw [hr] at h2; exact absurd h2 (by simp [isFailNet])
    | noContent => rw [hr] at h2; exact absurd h2 (by simp [isFailNet])
    | httpError s t =>
      simp [FhirServer.fhir_set_implementation_guide_context, h1,
        FhirServer.make_fhir_request, hr, (by decide : isBlank "" = true)]
    | timeoutErr =>
      simp [FhirServer.fhir_set_implementation_guide_context, h1,
        FhirServer.make_fhir_request, hr, (by decide : isBlank "" = true)]
    | connectErr =>
      simp [FhirServer.fhir_set_implementation_guide_context, h1,
        FhirServer.make_fhir_request, hr, (by decide : isBlank "" = true)]
  · intro st gid gurl net h1 h2
    cases hr : net ⟨"GET", "ImplementationGuide/" ++ pyStrip gid, none,
      none, "fhir"⟩ with
    | ok j => rw [hr] at h2; exact absurd h2 (by simp [isFailNet])
    | noContent => rw [hr] at h2; exact absurd h2 (by simp [isFailNet])
    | httpError s t =>
      simp [McpServer.fhir_set_implementation_guide_context, h1,
        McpServer.make_fhir_request, hr]
    | timeoutErr =>
      simp [McpServer.fhir_set_implementation_guide_context, h1,
        McpServer.make_fhir_request, hr]
    | connectErr =>
      simp [McpServer.fhir_set_implementation_guide_context, h1,
        McpServer.make_fhir_request, hr]
  · intro st gurl net bundle h1 h2 h3
    rcases h3 with h3 | h3 <;>
      simp [McpServer.fhir_set_implementation_guide_context, h1,
        McpServer.make_fhir_request, h2, h3,
        (by decide : isBlank "" = true)]
  · intro st gurl net h1 h2
    cases hr : net ⟨"GET", "ImplementationGuide",
      some [("url", pyStrip gurl)], none, "fhir"⟩ with
    | ok j => rw [hr] at h2; exact absurd h2 (by simp [isFailNet])
    | noContent => rw [hr] at h2; exact absurd h2 (by simp [isFailNet])
    | httpError s t =>
      simp [McpServer.fhir_set_implementation_guide_context, h1,
        McpServer.make_fhir_request, hr, (by decide : isBlank "" = true)]
    | timeoutErr =>
      simp [McpServer.fhir_set_implementation_guide_context, h1,
        McpServer.make_fhir_request, hr, (by decide : isBlank "" = true)]
    | connectErr =>
      simp [McpServer.fhir_set_implementation_guide_context, h1,
        McpServer.make_fhir_request, hr, (by decide : isBlank "" = true)]

/-- C10 witness: both setters invoked against a failing remote (HTTP
500) and against a url search that matches nothing leave a previously
set context in place. -/
theorem c10_failed_set_context_witness :
    isBlank "ig1" = false ∧
    isFailNet ((fun (_ : Request) => NetResult.httpError 500 "boom")
      ⟨"GET", "ImplementationGuide/" ++ "ig1", none, none, "fhir"⟩) =
      true ∧
    (FhirServer.fhir_set_implementation_guide_context
      ⟨"old", "http://example.org/old", "Old"⟩ "ig1" ""
      (fun _ => NetResult.httpError 500 "boom")).2.2 =
      ⟨"old", "http://example.org/old", "Old"⟩ ∧
    noEntries (Json.obj (JsonObj.cons "resourceType" (Json.str "Bundle")
      JsonObj.nil)) ∧
    (McpServer.fhir_set_implementation_guide_context
      (Json.obj (JsonObj.cons "id" (Json.str "old") JsonObj.nil)) ""
      "http://example.org/missing"
      (fun _ => NetResult.ok (Json.obj (JsonObj.cons "resourceType"
        (Json.str "Bundle") JsonObj.nil)))).2.2 =
      Json.obj (JsonObj.cons "id" (Json.str "old") JsonObj.nil) :=
  ⟨by decide, by decide,
   c10_failed_set_context_preserves_state.1
     ⟨"old", "http://example.org/old", "Old"⟩ "ig1" ""
     (fun _ => NetResult.httpError 500 "boom") (by decide) (by decide),
   Or.inl (by decide),
   c10_failed_set_context_preserves_state.2.2.2.2.1
     (Json.obj (JsonObj.cons "id" (Json.str "old") JsonObj.nil))
     "http://example.org/missing"
     (fun _ => NetResult.ok (Json.obj (JsonObj.cons "resourceType"
       (Json.str "Bundle") JsonObj.nil)))
     (Json.obj (JsonObj.cons "resourceType" (Json.str "Bundle")
       JsonObj.nil))
     (by decide) rfl (Or.inl (by decide))⟩

end SmartMcp
